import Mathlib

/-!
Verification of the file-type detection engine.

This file gives a shallow embedding of the detection core: the tokenizer
contract used by the detectors, the pure pattern predicates, the fixed-token
readers, the confident and imprecise detectors, and the detection pipeline.
Byte buffers are `List Nat` with every entry below 256; JavaScript strings
are `List Nat` of UTF-16 code units where unit-level behaviour matters, and
Lean `String` where the source only compares against ASCII literals.

External collaborators of the engine (the gzip inflater, the ZIP walker and
the JSON parser, all imported from other packages) are abstracted by the
`Ext` structure; the embedded code is parametric in it, and no claim in this
development depends on the behaviour of those collaborators.
-/

set_option maxRecDepth 10000

namespace FileType

/-- Detection result, `ext` and `mime` strings. -/
structure FileTypeResult where
  ext : String
  mime : String
deriving DecidableEq

/-- Errors surfacing from the tokenizer: end of stream, or exhaustion of the
fuel that bounds the unbounded source loops (PNG chunk walk, ASF object walk)
and the recursion of nested detections.  Fuel exhaustion never occurs for the
concrete runs in this file; it models the possibility of divergence. -/
inductive DetErr where
  | endOfStream : DetErr
  | fuelOut : DetErr
deriving DecidableEq

/-- Tokenizer state: the byte source, the cursor position and the
`fileInfo.size` field (`none` models `undefined`, i.e. an unbounded stream).
For a tokenizer built from a buffer, `size = some data.length`. -/
structure Tok where
  data : List Nat
  pos : Nat
  size : Option Nat
deriving DecidableEq

/-- `Number.MAX_SAFE_INTEGER`. -/
def maxSafeInteger : Nat := 2 ^ 53 - 1

/-- Tokenizer built by `strtok3.fromBuffer`. -/
def mkBufTok (data : List Nat) : Tok := ⟨data, 0, some data.length⟩

/-- Tokenizer built by `strtok3.fromWebStream`: the size is unknown. -/
def mkStreamTok (data : List Nat) : Tok := ⟨data, 0, none⟩

/-- The detectors replace an undefined `fileInfo.size` by
`Number.MAX_SAFE_INTEGER` ("keep reading until EOF if the file size is
unknown"). -/
def normSize (t : Tok) : Tok := { t with size := some (t.size.getD maxSafeInteger) }

/-- Bytes available past the cursor. -/
def Tok.avail (t : Tok) : Nat := t.data.length - t.pos

/-- `tokenizer.ignore(n)`: advance the position; when the size is known the
advance is clamped to the remaining bytes, mirroring
`AbstractTokenizer.ignore`.  The argument is an `Int` because one call site
(the ASF object walk) can pass a negative payload size. -/
def tokIgnore (n : Int) (t : Tok) : Tok :=
  match t.size with
  | some s => { t with pos := ((t.pos : Int) + min n ((s : Int) - (t.pos : Int))).toNat }
  | none => { t with pos := ((t.pos : Int) + n).toNat }

/-- `tokenizer.readBuffer(dst)` with the default exact-length semantics:
return `n` bytes from the cursor and advance, or fail with `EndOfStream`. -/
def tokReadBuf (n : Nat) (t : Tok) : Except DetErr (List Nat × Tok) :=
  if t.pos + n ≤ t.data.length then
    .ok ((t.data.drop t.pos).take n, { t with pos := t.pos + n })
  else
    .error .endOfStream

/-- `tokenizer.peekNumber(Token.UINT8)`. -/
def tokPeekByte (t : Tok) : Except DetErr Nat :=
  match t.data.get? t.pos with
  | some b => .ok b
  | none => .error .endOfStream

/-- The sample buffer view after a `peekBuffer(this.buffer, length, mayBeLess)`
call: the first `min length avail` bytes from the cursor.  The sample only
ever grows inside one detector invocation (every later peek at the same
position asks for at least as many bytes, or for a region the sample already
covers), so the sample is the prefix read by the largest peek so far. -/
def peekSample (cur : List Nat) (n : Nat) (t : Tok) : List Nat :=
  (t.data.drop t.pos).take (max cur.length n)

/-- The `this.buffer` array as indexed by JavaScript: a `Uint8Array` of
allocation length 4100 whose prefix holds the sampled bytes and whose tail
is zero-initialised. -/
def reasonableDetectionSizeInBytes : Nat := 4100

def sampleBuf (s : List Nat) : List Nat :=
  s ++ List.replicate (reasonableDetectionSizeInBytes - s.length) 0

/-- One comparison step of `_check`: with a mask, compare
`header === mask[i] & (buffer[idx] ?? 0)`; without a mask, compare
`header !== buffer[idx]`, where an out-of-range JavaScript index yields
`undefined` and therefore never equals a number. -/
def _checkAt (buffer : List Nat) (idx : Nat) (header : Nat) (mask : Option Nat) : Bool :=
  match mask with
  | some maskBit => header == maskBit &&& buffer.getD idx 0
  | none =>
    match buffer.get? idx with
    | some b => header == b
    | none => false

/-- `_check(buffer, headers, { offset, mask })`, iterating over
`headers.entries()`.  `i` is the running index into `headers`. -/
def _checkFrom (buffer : List Nat) (headers : List Nat) (offset i : Nat)
    (mask : Option (List Nat)) : Bool :=
  match headers with
  | [] => true
  | h :: rest =>
    _checkAt buffer (i + offset) h (mask.map fun m => m.getD i 0) &&
      _checkFrom buffer rest offset (i + 1) mask

def _check (buffer : List Nat) (headers : List Nat) (offset : Nat := 0)
    (mask : Option (List Nat) := none) : Bool :=
  _checkFrom buffer headers offset 0 mask

/-- `this.check(header, options)`: `_check` against the 4100-byte sample
buffer. -/
def check (s : List Nat) (headers : List Nat) (offset : Nat := 0)
    (mask : Option (List Nat) := none) : Bool :=
  _check (sampleBuf s) headers offset mask

/-! ### JavaScript strings

A JavaScript string is a sequence of UTF-16 code units; we model it as
`List Nat` with every entry below 2^16.  Lean string literals are converted
to that model by UTF-16-encoding their code points. -/

/-- UTF-16 code units of a Lean string (surrogate-pair encoding for code
points beyond the basic multilingual plane). -/
def strUnits (s : String) : List Nat :=
  s.data.flatMap fun c =>
    if c.toNat < 0x10000 then [c.toNat]
    else [0xD800 + (c.toNat - 0x10000) / 1024, 0xDC00 + (c.toNat - 0x10000) % 1024]

def isHighSurrogate (u : Nat) : Bool := 0xD800 ≤ u && u ≤ 0xDBFF

def isLowSurrogate (u : Nat) : Bool := 0xDC00 ≤ u && u ≤ 0xDFFF

/-- `[...string].map(character => character.charCodeAt(0))`: the spread
iterates by code point, and `charCodeAt(0)` yields the first UTF-16 unit of
each code point (the high surrogate for an astral pair). -/
def spreadFirstUnit : List Nat → List Nat
  | [] => []
  | [u] => [u]
  | u :: v :: rest =>
    if isHighSurrogate u && isLowSurrogate v then u :: spreadFirstUnit rest
    else u :: spreadFirstUnit (v :: rest)

/-- `stringToBytes(string, encoding)` from util.ts. -/
def stringToBytes (s : List Nat) (encoding : Option String := none) : List Nat :=
  if encoding = some "utf-16le" then
    s.flatMap fun code => [code &&& 0xff, (code >>> 8) &&& 0xff]
  else if encoding = some "utf-16be" then
    s.flatMap fun code => [(code >>> 8) &&& 0xff, code &&& 0xff]
  else
    spreadFirstUnit s

/-- `this.checkString(header, options)`. -/
def checkString (s : List Nat) (str : String) (offset : Nat := 0)
    (encoding : Option String := none) : Bool :=
  check s (stringToBytes (strUnits str) encoding) offset none

/-- `TextDecoder("utf-16le")` as a map from bytes to UTF-16 code units
(a dangling trailing byte yields the replacement character). -/
def utf16leDecodeUnits : List Nat → List Nat
  | b0 :: b1 :: rest => (b0 + 256 * b1) :: utf16leDecodeUnits rest
  | [_] => [0xFFFD]
  | [] => []

/-- `TextDecoder("utf-16be")` as a map from bytes to UTF-16 code units. -/
def utf16beDecodeUnits : List Nat → List Nat
  | b0 :: b1 :: rest => (256 * b0 + b1) :: utf16beDecodeUnits rest
  | [_] => [0xFFFD]
  | [] => []

/-- WHATWG UTF-8 decoding to code points, with U+FFFD replacement on
malformed input (the byte that breaks a sequence is reconsumed).  The first
argument is fuel for termination; every step consumes at least one byte, so
`l.length` is always enough. -/
def utf8DecodeAux : Nat → List Nat → List Nat
  | 0, _ => []
  | _, [] => []
  | fuel + 1, b :: rest =>
    let utf8Decode := utf8DecodeAux fuel
    if b < 0x80 then b :: utf8Decode rest
    else if 0xC2 ≤ b ∧ b ≤ 0xDF then
      match rest with
      | c1 :: r2 =>
        if 0x80 ≤ c1 ∧ c1 ≤ 0xBF then
          ((b - 0xC0) * 64 + (c1 - 0x80)) :: utf8Decode r2
        else 0xFFFD :: utf8Decode rest
      | [] => [0xFFFD]
    else if 0xE0 ≤ b ∧ b ≤ 0xEF then
      let lo1 := if b = 0xE0 then 0xA0 else 0x80
      let hi1 := if b = 0xED then 0x9F else 0xBF
      match rest with
      | c1 :: r2 =>
        if lo1 ≤ c1 ∧ c1 ≤ hi1 then
          match r2 with
          | c2 :: r3 =>
            if 0x80 ≤ c2 ∧ c2 ≤ 0xBF then
              ((b - 0xE0) * 4096 + (c1 - 0x80) * 64 + (c2 - 0x80)) :: utf8Decode r3
            else 0xFFFD :: utf8Decode r2
          | [] => [0xFFFD]
        else 0xFFFD :: utf8Decode rest
      | [] => [0xFFFD]
    else if 0xF0 ≤ b ∧ b ≤ 0xF4 then
      let lo1 := if b = 0xF0 then 0x90 else 0x80
      let hi1 := if b = 0xF4 then 0x8F else 0xBF
      match rest with
      | c1 :: r2 =>
        if lo1 ≤ c1 ∧ c1 ≤ hi1 then
          match r2 with
          | c2 :: r3 =>
            if 0x80 ≤ c2 ∧ c2 ≤ 0xBF then
              match r3 with
              | c3 :: r4 =>
                if 0x80 ≤ c3 ∧ c3 ≤ 0xBF then
                  ((b - 0xF0) * 262144 + (c1 - 0x80) * 4096 + (c2 - 0x80) * 64 + (c3 - 0x80))
                    :: utf8Decode r4
                else 0xFFFD :: utf8Decode r3
              | [] => [0xFFFD]
            else 0xFFFD :: utf8Decode r2
          | [] => [0xFFFD]
        else 0xFFFD :: utf8Decode rest
      | [] => [0xFFFD]
    else 0xFFFD :: utf8Decode rest

def utf8Decode (l : List Nat) : List Nat := utf8DecodeAux l.length l

/-- Latin-1 and ASCII decoding as used by `token-types` `StringType`: each
byte becomes the code point of the same value.  Every comparison the source
makes against such a decoded string involves only ASCII literals, for which
this byte-to-code-point map is exact. -/
def latin1Decode (l : List Nat) : List Nat := l

/-- Code points to a Lean string (code points are valid by construction of
the decoders). -/
def cpToString (l : List Nat) : String := String.mk (l.map Char.ofNat)

/-- ECMAScript `StrWhiteSpaceChar`: WhiteSpace and LineTerminator code
points, the set skipped by `parseInt` and removed by `String.prototype.trim`. -/
def jsWhitespace (c : Nat) : Bool :=
  c == 0x9 || c == 0xA || c == 0xB || c == 0xC || c == 0xD || c == 0x20 ||
  c == 0xA0 || c == 0x1680 || (decide (0x2000 ≤ c) && decide (c ≤ 0x200A)) ||
  c == 0x202F || c == 0x205F || c == 0x3000 || c == 0x2028 || c == 0x2029 ||
  c == 0xFEFF

/-- ECMAScript LineTerminator code points (`.` in a regular expression
without the `s` flag matches everything else). -/
def jsLineTerminator (c : Nat) : Bool :=
  c == 0xA || c == 0xD || c == 0x2028 || c == 0x2029

def jsTrimStart (l : List Nat) : List Nat := l.dropWhile jsWhitespace

def jsTrimEnd (l : List Nat) : List Nat := (l.reverse.dropWhile jsWhitespace).reverse

/-- `String.prototype.trim`. -/
def jsTrim (l : List Nat) : List Nat := jsTrimEnd (jsTrimStart l)

/-- Index of the first match of the regular expression `\x00.*$` (no `s`,
`m` flags): the first NUL that is followed only by non-LineTerminator code
points up to the end of the string. -/
def nulMatchIdx : List Nat → Option Nat
  | [] => none
  | c :: rest =>
    if c = 0 ∧ rest.all (fun d => !jsLineTerminator d) then some 0
    else (nulMatchIdx rest).map (· + 1)

/-- `string.replace(/\0.*$/, "")` (also the effect of
`replaceAll(/\x00.*$/g, "")`, since the first removal reaches the end of the
string). -/
def replaceNulToEnd (l : List Nat) : List Nat :=
  match nulMatchIdx l with
  | some i => l.take i
  | none => l

/-- Truncation at the first NUL code unit. -/
def truncAtNul (l : List Nat) : List Nat := l.takeWhile (fun c => c != 0)

/-- `string.replace("\0", " ")`: a string pattern replaces only the first
occurrence. -/
def replaceFirstNulWithSpace : List Nat → List Nat
  | [] => []
  | 0 :: rest => 32 :: rest
  | c :: rest => c :: replaceFirstNulWithSpace rest

def isOctDigit (c : Nat) : Bool := decide (48 ≤ c) && decide (c ≤ 55)

def octDigitsVal (l : List Nat) : Nat := l.foldl (fun a c => a * 8 + (c - 48)) 0

/-- The optional-sign step of `parseInt`: consume a leading `+` or `-`. -/
def parseSignSplit : List Nat → Int × List Nat
  | 43 :: r => (1, r)
  | 45 :: r => (-1, r)
  | w => (1, w)

/-- `Number.parseInt(string, 8)`: skip leading white space, read an optional
sign, then the longest run of octal digits; `NaN` (here `none`) if that run
is empty. -/
def jsParseIntOct (l : List Nat) : Option Int :=
  let w := l.dropWhile jsWhitespace
  let sr := parseSignSplit w
  let ds := sr.2.takeWhile isOctDigit
  if ds.isEmpty then none else some (sr.1 * (octDigitsVal ds : Int))

/-! ### Fixed-token readers and the TAR checksum (util.ts) -/

/-- `uint32SyncSafeToken.get(buffer, offset)`: note that only the last of
the four bytes is masked with `0x7F` before the combination. -/
def uint32SyncSafeToken_get (buffer : List Nat) (offset : Nat) : Nat :=
  (buffer.getD (offset + 3) 0 &&& 0x7f) ||| (buffer.getD (offset + 2) 0 <<< 7) |||
    (buffer.getD (offset + 1) 0 <<< 14) ||| (buffer.getD offset 0 <<< 21)

/-- `uint32SyncSafeToken.len`. -/
def uint32SyncSafeToken_len : Nat := 4

/-- `sum += arrayBuffer[index] ?? 0` over `len` consecutive indices starting
at `start`. -/
def sumRange (B : List Nat) (start len : Nat) : Nat :=
  ((List.range len).map fun i => B.getD (start + i) 0).sum

/-- The declared checksum of a TAR header: `StringType(6, "utf8")` decoded
at absolute offset 148, `\0`-tail removed, trimmed, parsed as octal. -/
def tarReadSum (B : List Nat) : Option Int :=
  jsParseIntOct (jsTrim (replaceNulToEnd (utf8Decode ((B.drop 148).take 6))))

/-- `tarHeaderChecksumMatches(arrayBuffer, offset = 0)` from util.ts. -/
def tarHeaderChecksumMatches (B : List Nat) (offset : Nat := 0) : Bool :=
  match tarReadSum B with
  | none => false
  | some readSum =>
    readSum == ((8 * 0x20 + sumRange B offset 148 + sumRange B (offset + 156) 356 : Nat) : Int)

/-! ### Integer readers (token-types) -/

def u16BE (l : List Nat) (o : Nat) : Nat := 256 * l.getD o 0 + l.getD (o + 1) 0

def u16LE (l : List Nat) (o : Nat) : Nat := l.getD o 0 + 256 * l.getD (o + 1) 0

def u32BE (l : List Nat) (o : Nat) : Nat :=
  16777216 * l.getD o 0 + 65536 * l.getD (o + 1) 0 + 256 * l.getD (o + 2) 0 + l.getD (o + 3) 0

def u32LE (l : List Nat) (o : Nat) : Nat :=
  l.getD o 0 + 256 * l.getD (o + 1) 0 + 65536 * l.getD (o + 2) 0 + 16777216 * l.getD (o + 3) 0

/-- `Token.INT32_BE` (signed). -/
def int32BE (l : List Nat) (o : Nat) : Int :=
  let v := u32BE l o
  if v < 2 ^ 31 then (v : Int) else (v : Int) - 2 ^ 32

/-- `Token.UINT64_LE` (the source converts the BigInt to a Number; values in
this development stay far below 2^53, where the conversion is exact). -/
def u64LE (l : List Nat) (o : Nat) : Nat :=
  (List.range 8).foldr (fun i a => a * 256 + l.getD (o + i) 0) 0

/-- `getUintBE` from uint8array-extras: big-endian unsigned value of a view
of 1 to 6 bytes; other lengths yield `undefined` (`none`). -/
def getUintBE (l : List Nat) : Option Nat :=
  if l.length = 0 ∨ 6 < l.length then none
  else some (l.foldl (fun a b => a * 256 + b) 0)

/-! ### The MIME-to-result map (core.ts `getFileTypeFromMimeType`) -/

/-- `String.prototype.toLowerCase` restricted to ASCII (every string this
map is consulted with is compared against ASCII literals). -/
def jsToLower (s : String) : String :=
  s.map fun c => if 'A' ≤ c ∧ c ≤ 'Z' then Char.ofNat (c.toNat + 32) else c

def getFileTypeFromMimeType (mimeType0 : String) : Option FileTypeResult :=
  let mimeType := jsToLower mimeType0
  if mimeType = "application/epub+zip" then some ⟨"epub", mimeType⟩
  else if mimeType = "application/vnd.oasis.opendocument.text" then some ⟨"odt", mimeType⟩
  else if mimeType = "application/vnd.oasis.opendocument.text-template" then some ⟨"ott", mimeType⟩
  else if mimeType = "application/vnd.oasis.opendocument.spreadsheet" then some ⟨"ods", mimeType⟩
  else if mimeType = "application/vnd.oasis.opendocument.spreadsheet-template" then some ⟨"ots", mimeType⟩
  else if mimeType = "application/vnd.oasis.opendocument.presentation" then some ⟨"odp", mimeType⟩
  else if mimeType = "application/vnd.oasis.opendocument.presentation-template" then some ⟨"otp", mimeType⟩
  else if mimeType = "application/vnd.oasis.opendocument.graphics" then some ⟨"odg", mimeType⟩
  else if mimeType = "application/vnd.oasis.opendocument.graphics-template" then some ⟨"otg", mimeType⟩
  else if mimeType = "application/vnd.openxmlformats-officedocument.presentationml.slideshow" then some ⟨"ppsx", mimeType⟩
  else if mimeType = "application/vnd.openxmlformats-officedocument.spreadsheetml.sheet" then some ⟨"xlsx", mimeType⟩
  else if mimeType = "application/vnd.ms-excel.sheet.macroenabled" then some ⟨"xlsm", "application/vnd.ms-excel.sheet.macroenabled.12"⟩
  else if mimeType = "application/vnd.openxmlformats-officedocument.spreadsheetml.template" then some ⟨"xltx", mimeType⟩
  else if mimeType = "application/vnd.ms-excel.template.macroenabled" then some ⟨"xltm", "application/vnd.ms-excel.template.macroenabled.12"⟩
  else if mimeType = "application/vnd.ms-powerpoint.slideshow.macroenabled" then some ⟨"ppsm", "application/vnd.ms-powerpoint.slideshow.macroenabled.12"⟩
  else if mimeType = "application/vnd.openxmlformats-officedocument.wordprocessingml.document" then some ⟨"docx", mimeType⟩
  else if mimeType = "application/vnd.ms-word.document.macroenabled" then some ⟨"docm", "application/vnd.ms-word.document.macroenabled.12"⟩
  else if mimeType = "application/vnd.openxmlformats-officedocument.wordprocessingml.template" then some ⟨"dotx", mimeType⟩
  else if mimeType = "application/vnd.ms-word.template.macroenabledtemplate" then some ⟨"dotm", "application/vnd.ms-word.template.macroenabled.12"⟩
  else if mimeType = "application/vnd.openxmlformats-officedocument.presentationml.template" then some ⟨"potx", mimeType⟩
  else if mimeType = "application/vnd.ms-powerpoint.template.macroenabled" then some ⟨"potm", "application/vnd.ms-powerpoint.template.macroenabled.12"⟩
  else if mimeType = "application/vnd.openxmlformats-officedocument.presentationml.presentation" then some ⟨"pptx", mimeType⟩
  else if mimeType = "application/vnd.ms-powerpoint.presentation.macroenabled" then some ⟨"pptm", "application/vnd.ms-powerpoint.presentation.macroenabled.12"⟩
  else if mimeType = "application/vnd.ms-visio.drawing" then some ⟨"vsdx", "application/vnd.visio"⟩
  else if mimeType = "application/vnd.ms-package.3dmanufacturing-3dmodel+xml" then some ⟨"3mf", "model/3mf"⟩
  else none

/-! ### External collaborators

The gzip inflater and the ZIP walker come from `@tokenizer/inflate`, and the
ASAR probe relies on `JSON.parse`; all are outside this repository.  They are
modelled abstractly: the embedded detector is parametric in an `Ext`
instance, and every theorem below either holds for all instances or uses an
arbitrary fixed one on inputs that never reach these collaborators. -/

structure Ext where
  /-- Bytes produced by `new GzipHandler(tokenizer).inflate()` when the
  remaining input is the argument. -/
  inflate : List Nat → List Nat
  /-- How many bytes the gzip handler consumed from the outer tokenizer. -/
  gzipConsumed : List Nat → Nat
  /-- Entries `(filename, inflated body)` produced by
  `new ZipHandler(tokenizer).unzip` on the remaining input, in walk order. -/
  zipEntries : List Nat → List (String × List Nat)
  /-- How many bytes the ZIP handler consumed from the outer tokenizer. -/
  zipConsumed : List Nat → Nat
  /-- Whether `JSON.parse` of the UTF-8 decoding of the given bytes succeeds
  and yields an object with a truthy `files` property. -/
  jsonHasFiles : List Nat → Bool

/-- First index at which `sub` occurs in `hay` (JavaScript
`String.prototype.indexOf`). -/
def jsIndexOf (hay sub : List Nat) : Option Nat :=
  (List.range (hay.length + 1)).find? fun i => sub.isPrefixOf (hay.drop i)

/-- Last index of the code unit `c` in `hay` (JavaScript `lastIndexOf`). -/
def jsLastIndexOf (hay : List Nat) (c : Nat) : Option Nat :=
  match hay.reverse.findIdx? (· == c) with
  | some j => some (hay.length - 1 - j)
  | none => none

/-- The test of the regular expression `/classes\d*\.dex/` (unanchored; the
greedy digit run is exact because `.` is not a digit). -/
def classesDexTest (units : List Nat) : Bool :=
  (List.range (units.length + 1)).any fun i =>
    let t := units.drop i
    (strUnits "classes").isPrefixOf t &&
      (strUnits ".dex").isPrefixOf
        ((t.drop 7).dropWhile fun c => decide (48 ≤ c) && decide (c ≤ 57))

/-- The `[Content_Types].xml` entry handler: locate the media type quoted
before `.main+xml"`, or fall back to the 3MF content-type test. -/
def contentTypesHandler (body : List Nat) (prior : Option FileTypeResult) :
    Option FileTypeResult :=
  let xmlContent := utf8Decode body
  match jsIndexOf xmlContent (strUnits ".main+xml\"") with
  | none =>
    let mt := "application/vnd.ms-package.3dmanufacturing-3dmodel+xml"
    if (jsIndexOf xmlContent (strUnits ("ContentType=\"" ++ mt ++ "\""))).isSome then
      getFileTypeFromMimeType mt
    else prior
  | some endPos =>
    let xmlContent := xmlContent.take (max 0 endPos)
    let firstPos : Nat :=
      match jsLastIndexOf xmlContent 34 with
      | some i => i + 1
      | none => 0
    getFileTypeFromMimeType (cpToString (xmlContent.drop firstPos))

/-- The per-entry decision callback of the ZIP arm: result is the new value
of the `fileType` variable and whether the walk stops. -/
def zipEntryStep (filename : String) (body : List Nat)
    (fileType : Option FileTypeResult) : Option FileTypeResult × Bool :=
  if filename = "META-INF/mozilla.rsa" then
    (some ⟨"xpi", "application/x-xpinstall"⟩, true)
  else if filename = "META-INF/MANIFEST.MF" then
    (some ⟨"jar", "application/java-archive"⟩, true)
  else if filename = "mimetype" then
    (getFileTypeFromMimeType (cpToString (jsTrim (utf8Decode body))), true)
  else if filename = "[Content_Types].xml" then
    (contentTypesHandler body fileType, true)
  else if classesDexTest (strUnits filename) then
    (some ⟨"apk", "application/vnd.android.package-archive"⟩, true)
  else (fileType, false)

/-- Folding the decision callback over the walked entries. -/
def zipHandlerFold : List (String × List Nat) → Option FileTypeResult → Option FileTypeResult
  | [], ft => ft
  | (name, body) :: rest, ft =>
    let step := zipEntryStep name body ft
    if step.2 then step.1 else zipHandlerFold rest step.1

/-! ### `Number(string)` (used by the AutoCAD arm) -/

/-- A JavaScript number as needed by the `dwg` version test: `NaN`, signed
infinity, or an exact decimal `m * 10 ^ e`. -/
inductive JSNum where
  | nan : JSNum
  | posInf : JSNum
  | negInf : JSNum
  | fin (m : Int) (e : Int) : JSNum
deriving DecidableEq

def isDecDigit (c : Nat) : Bool := decide (48 ≤ c) && decide (c ≤ 57)

def decDigitsVal (l : List Nat) : Nat := l.foldl (fun a c => a * 10 + (c - 48)) 0

def isHexDigit (c : Nat) : Bool :=
  isDecDigit c || (decide (65 ≤ c) && decide (c ≤ 70)) || (decide (97 ≤ c) && decide (c ≤ 102))

def hexDigitVal (c : Nat) : Nat :=
  if c ≤ 57 then c - 48 else if c ≤ 70 then c - 55 else c - 87

def hexDigitsVal (l : List Nat) : Nat := l.foldl (fun a c => a * 16 + hexDigitVal c) 0

/-- `StrUnsignedDecimalLiteral` without the `Infinity` form: digits with an
optional decimal point and an optional exponent; the whole list must be
consumed. -/
def parseDecMantissa (l : List Nat) : Option (Nat × Int) :=
  let intPart := l.takeWhile isDecDigit
  let r1 := l.drop intPart.length
  let (fracPart, r2) : List Nat × List Nat :=
    match r1 with
    | 46 :: r => (r.takeWhile isDecDigit, r.dropWhile isDecDigit)
    | _ => ([], r1)
  -- a literal needs at least one digit overall
  if intPart.isEmpty ∧ fracPart.isEmpty then none
  else
    let m := decDigitsVal (intPart ++ fracPart)
    let e0 : Int := -(fracPart.length : Int)
    match r2 with
    | [] => some (m, e0)
    | c :: r =>
      if c = 101 ∨ c = 69 then
        let (es, r') : Int × List Nat :=
          match r with
          | 43 :: rr => (1, rr)
          | 45 :: rr => (-1, rr)
          | _ => (1, r)
        let ed := r'.takeWhile isDecDigit
        if ed.isEmpty ∨ ¬ (r'.drop ed.length).isEmpty then none
        else some (m, e0 + es * (decDigitsVal ed : Int))
      else none

/-- `Number(string)` (ECMAScript ToNumber on strings), covering the decimal,
hexadecimal, octal, binary and infinity literal forms. -/
def jsNumber (units : List Nat) : JSNum :=
  let w := jsTrimEnd (jsTrimStart units)
  if w = [] then .fin 0 0
  else
    let (sgn, core) : Int × List Nat :=
      match w with
      | 43 :: r => (1, r)
      | 45 :: r => (-1, r)
      | _ => (1, w)
    let signed := w ≠ core
    if core = strUnits "Infinity" then (if sgn = 1 then .posInf else .negInf)
    else
      match core with
      | 48 :: x :: r =>
        if (x = 120 ∨ x = 88) ∧ ¬ signed then
          if ¬ r.isEmpty ∧ r.all isHexDigit then .fin (hexDigitsVal r) 0 else .nan
        else if (x = 111 ∨ x = 79) ∧ ¬ signed then
          if ¬ r.isEmpty ∧ r.all (fun c => decide (48 ≤ c) && decide (c ≤ 55)) then
            .fin (octDigitsVal r) 0
          else .nan
        else if (x = 98 ∨ x = 66) ∧ ¬ signed then
          if ¬ r.isEmpty ∧ r.all (fun c => c == 48 || c == 49) then
            .fin ((r.foldl (fun a c => a * 2 + (c - 48)) 0 : Nat)) 0
          else .nan
        else
          match parseDecMantissa core with
          | some (m, e) => .fin (sgn * m) e
          | none => .nan
      | _ =>
        match parseDecMantissa core with
        | some (m, e) => .fin (sgn * m) e
        | none => .nan

/-- `Number(v) >= b` for an integer bound. -/
def jsNumGe (x : JSNum) (b : Int) : Bool :=
  match x with
  | .nan => false
  | .posInf => true
  | .negInf => false
  | .fin m e =>
    if 0 ≤ e then decide (b ≤ m * 10 ^ e.toNat) else decide (b * 10 ^ (-e).toNat ≤ m)

/-- `Number(v) <= b` for an integer bound. -/
def jsNumLe (x : JSNum) (b : Int) : Bool :=
  match x with
  | .nan => false
  | .posInf => false
  | .negInf => true
  | .fin m e =>
    if 0 ≤ e then decide (m * 10 ^ e.toNat ≤ b) else decide (m ≤ b * 10 ^ (-e).toNat)

/-! ### The pure arms of the confident battery

Each bundle is a maximal run of consecutive arms of `detectConfident` that
only read the sample buffer.  The bundles appear in source order; the first
matching arm inside a bundle wins. -/

/-- 2-byte signatures: `bmp` through `arj`.  The `eps` arm re-peeks 24 bytes
into the sample; at that point the sample already covers
`min 32 available ≥ min 24 available` bytes at the same position, so the
peek leaves the model sample unchanged and the arm is pure. -/
def sigs2Byte (s : List Nat) : Option FileTypeResult :=
  if check s [0x42, 0x4d] then some ⟨"bmp", "image/bmp"⟩
  else if check s [0x0b, 0x77] then some ⟨"ac3", "audio/vnd.dolby.dd-raw"⟩
  else if check s [0x78, 0x01] then some ⟨"dmg", "application/x-apple-diskimage"⟩
  else if check s [0x4d, 0x5a] then some ⟨"exe", "application/x-msdownload"⟩
  else if check s [0x25, 0x21] then
    if checkString s "PS-Adobe-" 2 ∧ checkString s " EPSF-" 14 then
      some ⟨"eps", "application/eps"⟩
    else some ⟨"ps", "application/postscript"⟩
  else if check s [0x1f, 0xa0] || check s [0x1f, 0x9d] then
    some ⟨"Z", "application/x-compress"⟩
  else if check s [0xc7, 0x71] then some ⟨"cpio", "application/x-cpio"⟩
  else if check s [0x60, 0xea] then some ⟨"arj", "application/x-arj"⟩
  else none

/-- `gif` and `jxr` (between the UTF-8-BOM arm and the gzip arm). -/
def sigsGifJxr (s : List Nat) : Option FileTypeResult :=
  if check s [0x47, 0x49, 0x46] then some ⟨"gif", "image/gif"⟩
  else if check s [0x49, 0x49, 0xbc] then some ⟨"jxr", "image/vnd.ms-photo"⟩
  else none

/-- `MP+` through `icns` (between the ID3 arm and the ZIP probe). -/
def sigsMpcToIcns (s : List Nat) : Option FileTypeResult :=
  if checkString s "MP+" then some ⟨"mpc", "audio/x-musepack"⟩
  else if (s.getD 0 0 = 0x43 ∨ s.getD 0 0 = 0x46) ∧ check s [0x57, 0x53] 1 then
    some ⟨"swf", "application/x-shockwave-flash"⟩
  else if check s [0xff, 0xd8, 0xff] then
    if check s [0xf7] 3 then some ⟨"jls", "image/jls"⟩
    else some ⟨"jpg", "image/jpeg"⟩
  else if check s [0x4f, 0x62, 0x6a, 0x01] then some ⟨"avro", "application/avro"⟩
  else if checkString s "FLIF" then some ⟨"flif", "image/flif"⟩
  else if checkString s "8BPS" then some ⟨"psd", "image/vnd.adobe.photoshop"⟩
  else if checkString s "MPCK" then some ⟨"mpc", "audio/x-musepack"⟩
  else if checkString s "FORM" then some ⟨"aif", "audio/aiff"⟩
  else if checkString s "icns" 0 then some ⟨"icns", "image/icns"⟩
  else none

/-- Generic `zip` local-header signature through `wasm` (between the OGG
probe and the TIFF arms). -/
def sigsZipToWasm (s : List Nat) : Option FileTypeResult :=
  if check s [0x50, 0x4b] ∧ (s.getD 2 0 = 0x3 ∨ s.getD 2 0 = 0x5 ∨ s.getD 2 0 = 0x7) ∧
      (s.getD 3 0 = 0x4 ∨ s.getD 3 0 = 0x6 ∨ s.getD 3 0 = 0x8) then
    some ⟨"zip", "application/zip"⟩
  else if checkString s "MThd" then some ⟨"mid", "audio/midi"⟩
  else if checkString s "wOFF" ∧
      (check s [0x00, 0x01, 0x00, 0x00] 4 ∨ checkString s "OTTO" 4) then
    some ⟨"woff", "font/woff"⟩
  else if checkString s "wOF2" ∧
      (check s [0x00, 0x01, 0x00, 0x00] 4 ∨ checkString s "OTTO" 4) then
    some ⟨"woff2", "font/woff2"⟩
  else if check s [0xd4, 0xc3, 0xb2, 0xa1] || check s [0xa1, 0xb2, 0xc3, 0xd4] then
    some ⟨"pcap", "application/vnd.tcpdump.pcap"⟩
  else if checkString s "DSD " then some ⟨"dsf", "audio/x-dsf"⟩
  else if checkString s "LZIP" then some ⟨"lz", "application/x-lzip"⟩
  else if checkString s "fLaC" then some ⟨"flac", "audio/flac"⟩
  else if check s [0x42, 0x50, 0x47, 0xfb] then some ⟨"bpg", "image/bpg"⟩
  else if checkString s "wvpk" then some ⟨"wv", "audio/wavpack"⟩
  else if checkString s "%PDF" then some ⟨"pdf", "application/pdf"⟩
  else if check s [0x00, 0x61, 0x73, 0x6d] then some ⟨"wasm", "application/wasm"⟩
  else none

/-- The `ftyp` brand-major dispatch (never fails once the guard matched). -/
def ftypDispatch (s : List Nat) : FileTypeResult :=
  let brandMajor := cpToString (jsTrim (replaceFirstNulWithSpace
    (latin1Decode [s.getD 8 0, s.getD 9 0, s.getD 10 0, s.getD 11 0])))
  if brandMajor = "avif" ∨ brandMajor = "avis" then ⟨"avif", "image/avif"⟩
  else if brandMajor = "mif1" then ⟨"heic", "image/heif"⟩
  else if brandMajor = "msf1" then ⟨"heic", "image/heif-sequence"⟩
  else if brandMajor = "heic" ∨ brandMajor = "heix" then ⟨"heic", "image/heic"⟩
  else if brandMajor = "hevc" ∨ brandMajor = "hevx" then ⟨"heic", "image/heic-sequence"⟩
  else if brandMajor = "qt" then ⟨"mov", "video/quicktime"⟩
  else if brandMajor = "M4V" ∨ brandMajor = "M4VH" ∨ brandMajor = "M4VP" then
    ⟨"m4v", "video/x-m4v"⟩
  else if brandMajor = "M4P" then ⟨"m4p", "video/mp4"⟩
  else if brandMajor = "M4B" then ⟨"m4b", "audio/mp4"⟩
  else if brandMajor = "M4A" then ⟨"m4a", "audio/x-m4a"⟩
  else if brandMajor = "F4V" then ⟨"f4v", "video/mp4"⟩
  else if brandMajor = "F4P" then ⟨"f4p", "video/mp4"⟩
  else if brandMajor = "F4A" then ⟨"f4a", "audio/mp4"⟩
  else if brandMajor = "F4B" then ⟨"f4b", "audio/mp4"⟩
  else if brandMajor = "crx" then ⟨"cr3", "image/x-canon-cr3"⟩
  else if brandMajor.startsWith "3g" then
    if brandMajor.startsWith "3g2" then ⟨"3g2", "video/3gpp2"⟩
    else ⟨"3gp", "video/3gpp"⟩
  else ⟨"mp4", "video/mp4"⟩

/-- `SQLi` through `BLENDER` (between the EBML probe and the `!<arch>`
probe). -/
def sigsSqliteToBlender (s : List Nat) : Option FileTypeResult :=
  if checkString s "SQLi" then some ⟨"sqlite", "application/x-sqlite3"⟩
  else if check s [0x4e, 0x45, 0x53, 0x1a] then
    some ⟨"nes", "application/x-nintendo-nes-rom"⟩
  else if checkString s "Cr24" then some ⟨"crx", "application/x-google-chrome-extension"⟩
  else if checkString s "MSCF" || checkString s "ISc(" then
    some ⟨"cab", "application/vnd.ms-cab-compressed"⟩
  else if check s [0xed, 0xab, 0xee, 0xdb] then some ⟨"rpm", "application/x-rpm"⟩
  else if check s [0xc5, 0xd0, 0xd3, 0xc6] then some ⟨"eps", "application/eps"⟩
  else if check s [0x28, 0xb5, 0x2f, 0xfd] then some ⟨"zst", "application/zstd"⟩
  else if check s [0x7f, 0x45, 0x4c, 0x46] then some ⟨"elf", "application/x-elf"⟩
  else if check s [0x21, 0x42, 0x44, 0x4e] then some ⟨"pst", "application/vnd.ms-outlook"⟩
  else if checkString s "PAR1" || checkString s "PARE" then
    some ⟨"parquet", "application/vnd.apache.parquet"⟩
  else if checkString s "ttcf" then some ⟨"ttc", "font/collection"⟩
  else if check s [0xcf, 0xfa, 0xed, 0xfe] then some ⟨"macho", "application/x-mach-binary"⟩
  else if check s [0x04, 0x22, 0x4d, 0x18] then some ⟨"lz4", "application/x-lz4"⟩
  else if checkString s "regf" then some ⟨"dat", "application/x-ft-windows-registry-hive"⟩
  else if check s [0x4f, 0x54, 0x54, 0x4f, 0x00] then some ⟨"otf", "font/otf"⟩
  else if checkString s "#!AMR" then some ⟨"amr", "audio/amr"⟩
  else if checkString s "\x7b\\rtf" then some ⟨"rtf", "application/rtf"⟩
  else if check s [0x46, 0x4c, 0x56, 0x01] then some ⟨"flv", "video/x-flv"⟩
  else if checkString s "IMPM" then some ⟨"it", "audio/x-it"⟩
  else if checkString s "-lh0-" 2 || checkString s "-lh1-" 2 || checkString s "-lh2-" 2 ||
      checkString s "-lh3-" 2 || checkString s "-lh4-" 2 || checkString s "-lh5-" 2 ||
      checkString s "-lh6-" 2 || checkString s "-lh7-" 2 || checkString s "-lzs-" 2 ||
      checkString s "-lz4-" 2 || checkString s "-lz5-" 2 || checkString s "-lhd-" 2 then
    some ⟨"lzh", "application/x-lzh-compressed"⟩
  else if check s [0x00, 0x00, 0x01, 0xba] ∧ check s [0x21] 4 (some [0xf1]) then
    some ⟨"mpg", "video/MP1S"⟩
  else if check s [0x00, 0x00, 0x01, 0xba] ∧ check s [0x44] 4 (some [0xc4]) then
    some ⟨"mpg", "video/MP2P"⟩
  else if checkString s "ITSF" then some ⟨"chm", "application/vnd.ms-htmlhelp"⟩
  else if check s [0xca, 0xfe, 0xba, 0xbe] then some ⟨"class", "application/java-vm"⟩
  else if checkString s ".RMF" then some ⟨"rm", "application/vnd.rn-realmedia"⟩
  else if checkString s "DRACO" then some ⟨"drc", "application/vnd.google.draco"⟩
  else if check s [0xfd, 0x37, 0x7a, 0x58, 0x5a, 0x00] then some ⟨"xz", "application/x-xz"⟩
  else if checkString s "<?xml " then some ⟨"xml", "application/xml"⟩
  else if check s [0x37, 0x7a, 0xbc, 0xaf, 0x27, 0x1c] then
    some ⟨"7z", "application/x-7z-compressed"⟩
  else if check s [0x52, 0x61, 0x72, 0x21, 0x1a, 0x7] ∧
      (s.getD 6 0 = 0x0 ∨ s.getD 6 0 = 0x1) then
    some ⟨"rar", "application/x-rar-compressed"⟩
  else if checkString s "solid " then some ⟨"stl", "model/stl"⟩
  else if checkString s "AC" ∧
      -- `version.match("^d*")` is always truthy (the pattern matches the
      -- empty string), so only the numeric range test matters
      (let version := jsNumber (latin1Decode [s.getD 2 0, s.getD 3 0, s.getD 4 0, s.getD 5 0])
       jsNumGe version 1000 ∧ jsNumLe version 1050) then
    some ⟨"dwg", "image/vnd.dwg"⟩
  else if checkString s "070707" then some ⟨"cpio", "application/x-cpio"⟩
  else if checkString s "BLENDER" then some ⟨"blend", "application/x-blender"⟩
  else none

/-- The `WEBVTT` arm. -/
def sigsWebvtt (s : List Nat) : Option FileTypeResult :=
  if checkString s "WEBVTT" ∧
      ["\n", "\r", "\t", " ", "\x00"].any (fun char7 => checkString s char7 6) then
    some ⟨"vtt", "text/vtt"⟩
  else none

/-- `ARROW1` through the Panasonic `rw2` signature (between the PNG walk and
the ASF probe); includes the pure ISO-BMFF `ftyp` dispatch. -/
def sigsArrowToRw2 (s : List Nat) : Option FileTypeResult :=
  if check s [0x41, 0x52, 0x52, 0x4f, 0x57, 0x31, 0x00, 0x00] then
    some ⟨"arrow", "application/vnd.apache.arrow.file"⟩
  else if check s [0x67, 0x6c, 0x54, 0x46, 0x02, 0x00, 0x00, 0x00] then
    some ⟨"glb", "model/gltf-binary"⟩
  else if check s [0x66, 0x72, 0x65, 0x65] 4 || check s [0x6d, 0x64, 0x61, 0x74] 4 ||
      check s [0x6d, 0x6f, 0x6f, 0x76] 4 || check s [0x77, 0x69, 0x64, 0x65] 4 then
    some ⟨"mov", "video/quicktime"⟩
  else if check s [0x49, 0x49, 0x52, 0x4f, 0x08, 0x00, 0x00, 0x00, 0x18] then
    some ⟨"orf", "image/x-olympus-orf"⟩
  else if checkString s "gimp xcf " then some ⟨"xcf", "image/x-xcf"⟩
  else if checkString s "ftyp" 4 ∧ (s.getD 8 0 &&& 0x60) ≠ 0x00 then
    some (ftypDispatch s)
  else if checkString s "REGEDIT4\r\n" then some ⟨"reg", "application/x-ms-regedit"⟩
  else if check s [0x52, 0x49, 0x46, 0x46] ∧ checkString s "WEBP" 8 then
    some ⟨"webp", "image/webp"⟩
  else if check s [0x52, 0x49, 0x46, 0x46] ∧ check s [0x41, 0x56, 0x49] 8 then
    some ⟨"avi", "video/vnd.avi"⟩
  else if check s [0x52, 0x49, 0x46, 0x46] ∧ check s [0x57, 0x41, 0x56, 0x45] 8 then
    some ⟨"wav", "audio/wav"⟩
  else if check s [0x52, 0x49, 0x46, 0x46] ∧ check s [0x51, 0x4c, 0x43, 0x4d] 8 then
    some ⟨"qcp", "audio/qcelp"⟩
  else if check s [0x49, 0x49, 0x55, 0x00, 0x18, 0x00, 0x00, 0x00, 0x88, 0xe7, 0x74, 0xd8] then
    some ⟨"rw2", "image/x-panasonic-rw2"⟩
  else none

/-- `KTX` through `J2C` (between the ASF probe and the JPEG-2000 probe). -/
def sigsKtxToJ2c (s : List Nat) : Option FileTypeResult :=
  if check s [0xab, 0x4b, 0x54, 0x58, 0x20, 0x31, 0x31, 0xbb, 0x0d, 0x0a, 0x1a, 0x0a] then
    some ⟨"ktx", "image/ktx"⟩
  else if (check s [0x7e, 0x10, 0x04] || check s [0x7e, 0x18, 0x04]) ∧
      check s [0x30, 0x4d, 0x49, 0x45] 4 then
    some ⟨"mie", "application/x-mie"⟩
  else if check s [0x27, 0x0a, 0x00, 0x00, 0x00, 0x00, 0x00, 0x00, 0x00, 0x00, 0x00, 0x00] 2 then
    some ⟨"shp", "application/x-esri-shape"⟩
  else if check s [0xff, 0x4f, 0xff, 0x51] then some ⟨"j2c", "image/j2c"⟩
  else none

/-- The JXL arm (directly after the JPEG-2000 probe). -/
def sigsJxl (s : List Nat) : Option FileTypeResult :=
  if check s [0xff, 0x0a] ||
      check s [0x00, 0x00, 0x00, 0x0c, 0x4a, 0x58, 0x4c, 0x20, 0x0d, 0x0a, 0x87, 0x0a] then
    some ⟨"jxl", "image/jxl"⟩
  else none

/-- The UTF-16-BE BOM arm: either an `xml` result or an unconditional
"unknown" exit ("some unknown text based format"). -/
def utf16beArm (s : List Nat) : Option FileTypeResult :=
  if checkString s "<?xml " 2 (some "utf-16be") then some ⟨"xml", "application/xml"⟩
  else none

/-- The arms guarded by the sample extension to 256 bytes: ICC profile
through InDesign. -/
def sigs256Block (E : Ext) (s : List Nat) : Option FileTypeResult :=
  if check s [0x61, 0x63, 0x73, 0x70] 36 then some ⟨"icc", "application/vnd.iccprofile"⟩
  else if checkString s "**ACE" 7 ∧ checkString s "**" 12 then
    some ⟨"ace", "application/x-ace-compressed"⟩
  else if checkString s "BEGIN:" ∧ checkString s "VCARD" 6 then some ⟨"vcf", "text/vcard"⟩
  else if checkString s "BEGIN:" ∧ checkString s "VCALENDAR" 6 then
    some ⟨"ics", "text/calendar"⟩
  else if checkString s "FUJIFILMCCD-RAW" then some ⟨"raf", "image/x-fujifilm-raf"⟩
  else if checkString s "Extended Module:" then some ⟨"xm", "audio/x-xm"⟩
  else if checkString s "Creative Voice File" then some ⟨"voc", "audio/x-voc"⟩
  else if check s [0x04, 0x00, 0x00, 0x00] ∧ reasonableDetectionSizeInBytes ≥ 16 ∧
      -- Pickle/ASAR: the JSON length is read little-endian at offset 12 of
      -- the sample buffer, whose allocation length is 4100
      (let jsonSize := u32LE s 12
       jsonSize > 12 ∧ reasonableDetectionSizeInBytes ≥ jsonSize + 16 ∧
         E.jsonHasFiles (((sampleBuf s).drop 16).take (u32LE s 12))) then
    some ⟨"asar", "application/x-asar"⟩
  else if check s [0x06, 0x0e, 0x2b, 0x34, 0x02, 0x05, 0x01, 0x01, 0x0d, 0x01, 0x02, 0x01,
      0x01, 0x02] then
    some ⟨"mxf", "application/mxf"⟩
  else if checkString s "SCRM" 44 then some ⟨"s3m", "audio/x-s3m"⟩
  else if check s [0x47] ∧ check s [0x47] 188 then some ⟨"mts", "video/mp2t"⟩
  else if check s [0x47] 4 ∧ check s [0x47] 196 then some ⟨"mts", "video/mp2t"⟩
  else if check s [0x42, 0x4f, 0x4f, 0x4b, 0x4d, 0x4f, 0x42, 0x49] 60 then
    some ⟨"mobi", "application/x-mobipocket-ebook"⟩
  else if check s [0x44, 0x49, 0x43, 0x4d] 128 then some ⟨"dcm", "application/dicom"⟩
  else if check s [0x4c, 0x00, 0x00, 0x00, 0x01, 0x14, 0x02, 0x00, 0x00, 0x00, 0x00, 0x00,
      0xc0, 0x00, 0x00, 0x00, 0x00, 0x00, 0x00, 0x46] then
    some ⟨"lnk", "application/x.ms.shortcut"⟩
  else if check s [0x62, 0x6f, 0x6f, 0x6b, 0x00, 0x00, 0x00, 0x00, 0x6d, 0x61, 0x72, 0x6b,
      0x00, 0x00, 0x00, 0x00] then
    some ⟨"alias", "application/x.apple.alias"⟩
  else if checkString s "Kaydara FBX Binary  \x00" then
    some ⟨"fbx", "application/x.autodesk.fbx"⟩
  else if check s [0x4c, 0x50] 34 ∧
      (check s [0x00, 0x00, 0x01] 8 || check s [0x01, 0x00, 0x02] 8 ||
        check s [0x02, 0x00, 0x02] 8) then
    some ⟨"eot", "application/vnd.ms-fontobject"⟩
  else if check s [0x06, 0x06, 0xed, 0xf5, 0xd8, 0x1d, 0x46, 0xe5, 0xbd, 0x31, 0xef, 0xe7,
      0xfe, 0x74, 0xb7, 0x1d] then
    some ⟨"indd", "application/x-indesign"⟩
  else none

/-- The TAR guard of the confident battery (uses the 512-byte sample): a
`ustar` magic, or a zeroed magic slot with a matching header checksum
computed over the 4100-byte sample buffer. -/
def tarGuard (s : List Nat) : Bool :=
  (checkString s "ustar" 257 ∧ (checkString s "\x00" 262 || checkString s " " 262)) ||
    (check s [0, 0, 0, 0, 0, 0] 257 ∧ tarHeaderChecksumMatches (sampleBuf s))

/-- The UTF-16-LE BOM arm: `xml`, `skp`, `reg`, or an unconditional
"unknown" exit ("some text based format"). -/
def utf16leArm (s : List Nat) : Option FileTypeResult :=
  if checkString s "<?xml " 2 (some "utf-16le") then some ⟨"xml", "application/xml"⟩
  else if check s [0xff, 0x0e] 2 ∧ checkString s "SketchUp Model" 4 (some "utf-16le") then
    some ⟨"skp", "application/vnd.sketchup.skp"⟩
  else if checkString s "Windows Registry Editor Version 5.00\r\n" 2 (some "utf-16le") then
    some ⟨"reg", "application/x-ms-regedit"⟩
  else none

/-! ### Tokenizer-consuming container probes -/

/-- The result type of a detector invocation: an error, or an optional
result together with the tokenizer state at exit. -/
abbrev DetRes := Except DetErr (Option FileTypeResult × Tok)

/-- `tokenizer.fileInfo.size` as consumed by the detectors; the detectors
normalize the size to `MAX_SAFE_INTEGER` on entry, so the default is never
reached on their paths. -/
def Tok.sizeN (t : Tok) : Nat := t.size.getD maxSafeInteger

/-- Number of leading zero bits of an 8-bit value (the `while` loop of the
EBML `readField`; 8 for a zero byte). -/
def ebmlLeadingZeros (msb : Nat) : Nat :=
  if msb &&& 0x80 ≠ 0 then 0
  else if msb &&& 0x40 ≠ 0 then 1
  else if msb &&& 0x20 ≠ 0 then 2
  else if msb &&& 0x10 ≠ 0 then 3
  else if msb &&& 0x08 ≠ 0 then 4
  else if msb &&& 0x04 ≠ 0 then 5
  else if msb &&& 0x02 ≠ 0 then 6
  else if msb &&& 0x01 ≠ 0 then 7
  else 8

/-- EBML `readField`: peek the marker byte, then read the whole
variable-length field. -/
def ebmlReadField (t : Tok) : Except DetErr (List Nat × Tok) :=
  match tokPeekByte t with
  | .error e => .error e
  | .ok msb => tokReadBuf (ebmlLeadingZeros msb + 1) t

/-- EBML `readElement`: id field (as a big-endian number when it fits in six
bytes) and length field with the marker bit cleared. -/
def ebmlReadElement (t : Tok) : Except DetErr ((Option Nat × Nat) × Tok) :=
  match ebmlReadField t with
  | .error e => .error e
  | .ok (idField, t1) =>
    match ebmlReadField t1 with
    | .error e => .error e
    | .ok (lengthField, t2) =>
      let lf :=
        match lengthField with
        | x :: rest => (x ^^^ (0x80 >>> (lengthField.length - 1))) :: rest
        | [] => [0]  -- unreachable: a field holds at least one byte
      let nrLength := min 6 lf.length
      let lenView := lf.drop (lf.length - nrLength)
      .ok ((getUintBE idField, (getUintBE lenView).getD 0), t2)

/-- EBML `readChildren`: scan up to `children` sibling elements for the
DocType element `0x4282`; its payload is decoded as UTF-8 and the NUL tail
removed. -/
def ebmlReadChildren : Nat → Tok → Except DetErr (Option (List Nat) × Tok)
  | 0, t => .ok (none, t)
  | children + 1, t =>
    match ebmlReadElement t with
    | .error e => .error e
    | .ok ((id, len), t1) =>
      if id = some 0x4282 then
        match tokReadBuf len t1 with
        | .error e => .error e
        | .ok (bytes, t2) => .ok (some (replaceNulToEnd (utf8Decode bytes)), t2)
      else ebmlReadChildren children (tokIgnore (len : Int) t1)

/-- The EBML (Matroska/WebM) arm. -/
def ebmlArm (t : Tok) : DetRes :=
  match ebmlReadElement t with
  | .error e => .error e
  | .ok ((_, len), t1) =>
    match ebmlReadChildren len t1 with
    | .error e => .error e
    | .ok (documentType, t2) =>
      match documentType with
      | some d =>
        if d = strUnits "webm" then .ok (some ⟨"webm", "video/webm"⟩, t2)
        else if d = strUnits "matroska" then .ok (some ⟨"mkv", "video/matroska"⟩, t2)
        else .ok (none, t2)
      | none => .ok (none, t2)

/-- `readTiffTag`. -/
def readTiffTag (bigEndian : Bool) (t : Tok) : DetRes :=
  match tokReadBuf 2 t with
  | .error e => .error e
  | .ok (b, t1) =>
    let tagId := if bigEndian then u16BE b 0 else u16LE b 0
    let t2 := tokIgnore 10 t1
    if tagId = 50341 then .ok (some ⟨"arw", "image/x-sony-arw"⟩, t2)
    else if tagId = 50706 then .ok (some ⟨"dng", "image/x-adobe-dng"⟩, t2)
    else .ok (none, t2)

/-- The tag loop of `readTiffIFD`. -/
def tiffTagLoop (bigEndian : Bool) : Nat → Tok → DetRes
  | 0, t => .ok (none, t)
  | n + 1, t =>
    match readTiffTag bigEndian t with
    | .error e => .error e
    | .ok (some ft, t1) => .ok (some ft, t1)
    | .ok (none, t1) => tiffTagLoop bigEndian n t1

/-- `readTiffIFD`. -/
def readTiffIFD (bigEndian : Bool) (t : Tok) : DetRes :=
  match tokReadBuf 2 t with
  | .error e => .error e
  | .ok (b, t1) =>
    let numberOfTags := if bigEndian then u16BE b 0 else u16LE b 0
    if numberOfTags = 0 then .ok (none, t1)
    else tiffTagLoop bigEndian numberOfTags t1

/-- `readTiffHeader`: version and IFD offset come from the sample buffer;
a `none` exit (unrecognized version) performs no tokenizer operation. -/
def readTiffHeader (bigEndian : Bool) (s : List Nat) (t : Tok) : DetRes :=
  let version := if bigEndian then u16BE s 2 else u16LE s 2
  let ifdOffset := if bigEndian then u32BE s 4 else u32LE s 4
  if version = 42 then
    if 6 ≤ ifdOffset ∧ checkString s "CR" 8 then
      .ok (some ⟨"cr2", "image/x-canon-cr2"⟩, t)
    else if 6 ≤ ifdOffset ∧ 8 ≤ ifdOffset ∧
        (((if bigEndian then u16BE s 8 else u16LE s 8) = 0x1c ∧
          (if bigEndian then u16BE s 10 else u16LE s 10) = 0xfe) ∨
         ((if bigEndian then u16BE s 8 else u16LE s 8) = 0x1f ∧
          (if bigEndian then u16BE s 10 else u16LE s 10) = 0x0b)) then
      .ok (some ⟨"nef", "image/x-nikon-nef"⟩, t)
    else
      match readTiffIFD bigEndian (tokIgnore (ifdOffset : Int) t) with
      | .error e => .error e
      | .ok (some ft, t1) => .ok (some ft, t1)
      | .ok (none, t1) => .ok (some ⟨"tif", "image/tiff"⟩, t1)
  else if version = 43 then .ok (some ⟨"tif", "image/tiff"⟩, t)
  else .ok (none, t)

/-- The OGG codec dispatch (after `OggS`, 28 bytes skipped and 8 read). -/
def oggArm (t : Tok) : DetRes :=
  match tokReadBuf 8 (tokIgnore 28 t) with
  | .error e => .error e
  | .ok (type, t1) =>
    if _check type [0x4f, 0x70, 0x75, 0x73, 0x48, 0x65, 0x61, 0x64] then
      .ok (some ⟨"opus", "audio/ogg; codecs=opus"⟩, t1)
    else if _check type [0x80, 0x74, 0x68, 0x65, 0x6f, 0x72, 0x61] then
      .ok (some ⟨"ogv", "video/ogg"⟩, t1)
    else if _check type [0x01, 0x76, 0x69, 0x64, 0x65, 0x6f, 0x00] then
      .ok (some ⟨"ogm", "video/ogg"⟩, t1)
    else if _check type [0x7f, 0x46, 0x4c, 0x41, 0x43] then
      .ok (some ⟨"oga", "audio/ogg"⟩, t1)
    else if _check type [0x53, 0x70, 0x65, 0x65, 0x78, 0x20, 0x20] then
      .ok (some ⟨"spx", "audio/ogg"⟩, t1)
    else if _check type [0x01, 0x76, 0x6f, 0x72, 0x62, 0x69, 0x73] then
      .ok (some ⟨"ogg", "audio/ogg"⟩, t1)
    else .ok (some ⟨"ogx", "application/ogg"⟩, t1)

/-- The `!<arch>` arm. -/
def archArm (t : Tok) : DetRes :=
  match tokReadBuf 13 (tokIgnore 8 t) with
  | .error e => .error e
  | .ok (b, t1) =>
    if cpToString (latin1Decode b) = "debian-binary" then
      .ok (some ⟨"deb", "application/x-deb"⟩, t1)
    else .ok (some ⟨"ar", "application/x-unix-archive"⟩, t1)

/-- The PNG chunk walk (after the 8 signature bytes were skipped). -/
def pngChunkLoop : Nat → Tok → DetRes
  | 0, _ => .error .fuelOut
  | fuel + 1, t =>
    match tokReadBuf 4 t with
    | .error e => .error e
    | .ok (lenB, t1) =>
      match tokReadBuf 4 t1 with
      | .error e => .error e
      | .ok (typeB, t2) =>
        let length := int32BE lenB 0
        if length < 0 then .ok (none, t2)
        else
          let ctype := cpToString (latin1Decode typeB)
          if ctype = "IDAT" then .ok (some ⟨"png", "image/png"⟩, t2)
          else if ctype = "acTL" then .ok (some ⟨"apng", "image/apng"⟩, t2)
          else
            let t3 := tokIgnore (length + 4) t2
            if t3.pos + 8 < t3.sizeN then pngChunkLoop fuel t3
            else .ok (some ⟨"png", "image/png"⟩, t3)

/-- The PNG arm. -/
def pngArm (fuel : Nat) (t : Tok) : DetRes := pngChunkLoop fuel (tokIgnore 8 t)

/-- The ASF object walk (after the 30 header bytes were skipped). -/
def asfObjectLoop : Nat → Tok → DetRes
  | 0, _ => .error .fuelOut
  | fuel + 1, t =>
    if t.pos + 24 < t.sizeN then
      match tokReadBuf 16 t with
      | .error e => .error e
      | .ok (guid, t1) =>
        match tokReadBuf 8 t1 with
        | .error e => .error e
        | .ok (szB, t2) =>
          let payload : Int := (u64LE szB 0 : Int) - 24
          if _check guid [0x91, 0x07, 0xdc, 0xb7, 0xb7, 0xa9, 0xcf, 0x11, 0x8e, 0xe6, 0x00,
              0xc0, 0x0c, 0x20, 0x53, 0x65] then
            match tokReadBuf 16 t2 with
            | .error e => .error e
            | .ok (typeId, t3) =>
              if _check typeId [0x40, 0x9e, 0x69, 0xf8, 0x4d, 0x5b, 0xcf, 0x11, 0xa8, 0xfd,
                  0x00, 0x80, 0x5f, 0x5c, 0x44, 0x2b] then
                .ok (some ⟨"asf", "audio/x-ms-asf"⟩, t3)
              else if _check typeId [0xc0, 0xef, 0x19, 0xbc, 0x4d, 0x5b, 0xcf, 0x11, 0xa8,
                  0xfd, 0x00, 0x80, 0x5f, 0x5c, 0x44, 0x2b] then
                .ok (some ⟨"asf", "video/x-ms-asf"⟩, t3)
              else
                -- `break`: leave the loop and fall to the generic result
                .ok (some ⟨"asf", "application/vnd.ms-asf"⟩, t3)
          else asfObjectLoop fuel (tokIgnore payload t2)
    else .ok (some ⟨"asf", "application/vnd.ms-asf"⟩, t)

/-- The ASF arm. -/
def asfArm (fuel : Nat) (t : Tok) : DetRes := asfObjectLoop fuel (tokIgnore 30 t)

/-- The JPEG-2000 family arm: skip 20 bytes, read a 4-byte brand. -/
def jp2kArm (t : Tok) : DetRes :=
  match tokReadBuf 4 (tokIgnore 20 t) with
  | .error e => .error e
  | .ok (b, t1) =>
    let type := cpToString (latin1Decode b)
    if type = "jp2 " then .ok (some ⟨"jp2", "image/jp2"⟩, t1)
    else if type = "jpx " then .ok (some ⟨"jpx", "image/jpx"⟩, t1)
    else if type = "jpm " then .ok (some ⟨"jpm", "image/jpm"⟩, t1)
    else if type = "mjp2" then .ok (some ⟨"mj2", "image/mj2"⟩, t1)
    else .ok (none, t1)

/-- The ZIP local-file-header arm: walk the archive through the external
handler and fold the per-entry decisions. -/
def zipArm (E : Ext) (t : Tok) : DetRes :=
  let remaining := t.data.drop t.pos
  let fileType := zipHandlerFold (E.zipEntries remaining) none
  .ok (some (fileType.getD ⟨"zip", "application/zip"⟩),
    { t with pos := t.pos + E.zipConsumed remaining })

/-! ### The imprecise detector -/

/-- `scanMpeg(offset)`: MPEG sync word search at one offset. -/
def scanMpeg (s : List Nat) (offset : Nat) : Option FileTypeResult :=
  if check s [0xff, 0xe0] offset (some [0xff, 0xe0]) then
    if check s [0x10] (offset + 1) (some [0x16]) then
      if check s [0x08] (offset + 1) (some [0x08]) then
        some ⟨"aac", "audio/aac"⟩  -- (ADTS) MPEG-2
      else some ⟨"aac", "audio/aac"⟩  -- (ADTS) MPEG-4
    else if check s [0x02] (offset + 1) (some [0x06]) then some ⟨"mp3", "audio/mpeg"⟩
    else if check s [0x04] (offset + 1) (some [0x06]) then some ⟨"mp2", "audio/mpeg"⟩
    else if check s [0x06] (offset + 1) (some [0x06]) then some ⟨"mp1", "audio/mpeg"⟩
    else none
  else none

/-- `detectImprecise`. -/
def detectImprecise (tol : Nat) (t0 : Tok) : DetRes :=
  let t := normSize t0
  let s := peekSample [] (min 8 t.sizeN) t
  if check s [0x0, 0x0, 0x1, 0xba] || check s [0x0, 0x0, 0x1, 0xb3] then
    .ok (some ⟨"mpg", "video/mpeg"⟩, t)
  else if check s [0x00, 0x01, 0x00, 0x00, 0x00] then .ok (some ⟨"ttf", "font/ttf"⟩, t)
  else if check s [0x00, 0x00, 0x01, 0x00] then .ok (some ⟨"ico", "image/x-icon"⟩, t)
  else if check s [0x00, 0x00, 0x02, 0x00] then .ok (some ⟨"cur", "image/x-icon"⟩, t)
  else
    let s2 := peekSample s (min (2 + tol) t.sizeN) t
    -- `this.buffer.length >= 2 + tolerance`: the buffer allocation length
    -- is always `reasonableDetectionSizeInBytes`
    if reasonableDetectionSizeInBytes ≥ 2 + tol then
      match (List.range (tol + 1)).findSome? (fun depth => scanMpeg s2 depth) with
      | some ft => .ok (some ft, t)
      | none => .ok (none, t)
    else .ok (none, t)

/-! ### The confident detector and the pipeline -/

/-- The iteration of `fromTokenizer` over a list of detector functions:
return the first non-empty result; after a detector returns nothing, stop
with "unknown" if the position moved away from the entry snapshot. -/
def runCustoms : List (Tok → DetRes) → Nat → Tok → DetRes
  | [], _, t => .ok (none, t)
  | d :: rest, initialPosition, t =>
    match d t with
    | .error e => .error e
    | .ok (some ft, t1) => .ok (some ft, t1)
    | .ok (none, t1) =>
      if initialPosition ≠ t1.pos then .ok (none, t1)
      else runCustoms rest initialPosition t1

mutual

/-- `detectConfident`: the ordered signature battery.  The first argument is
fuel, consumed by the nested detections (UTF-8 BOM, gzip, ID3) and by the
unbounded probe loops. -/
def detectConfident : Nat → Ext → List (Tok → DetRes) → Nat → Tok → DetRes
  | 0, _, _, _, _ => .error .fuelOut
  | fuel + 1, E, customs, tol, t0 =>
    let t := normSize t0
    let s := peekSample [] 32 t
    if let some r := sigs2Byte s then .ok (some r, t)
    else if check s [0xef, 0xbb, 0xbf] then
      -- UTF-8-BOM: strip and recurse into confident detection
      detectConfident fuel E customs tol (tokIgnore 3 t)
    else if let some r := sigsGifJxr s then .ok (some r, t)
    else if check s [0x1f, 0x8b, 0x8] then
      -- gzip: run a nested full detection on the inflated stream
      let remaining := t.data.drop t.pos
      match fromTokenizer fuel E customs tol (mkStreamTok (E.inflate remaining)) with
      | .error e => .error e
      | .ok (compressedFileType, _) =>
        let t1 := { t with pos := t.pos + E.gzipConsumed remaining }
        match compressedFileType with
        | some c =>
          if c.ext = "tar" then .ok (some ⟨"tar.gz", "application/gzip"⟩, t1)
          else .ok (some ⟨"gz", "application/gzip"⟩, t1)
        | none => .ok (some ⟨"gz", "application/gzip"⟩, t1)
    else if check s [0x42, 0x5a, 0x68] then .ok (some ⟨"bz2", "application/x-bzip2"⟩, t)
    else if checkString s "ID3" then
      let t1 := tokIgnore 6 t
      match tokReadBuf 4 t1 with
      | .error e => .error e
      | .ok (b4, t2) =>
        let id3HeaderLength := uint32SyncSafeToken_get b4 0
        if t2.pos + id3HeaderLength > t2.sizeN then .ok (some ⟨"mp3", "audio/mpeg"⟩, t2)
        else fromTokenizer fuel E customs tol (tokIgnore (id3HeaderLength : Int) t2)
    else if let some r := sigsMpcToIcns s then .ok (some r, t)
    else if check s [0x50, 0x4b, 0x3, 0x4] then zipArm E t
    else if checkString s "OggS" then oggArm t
    else if let some r := sigsZipToWasm s then .ok (some r, t)
    else
      match (if check s [0x49, 0x49] then readTiffHeader false s t else .ok (none, t)) with
      | .error e => .error e
      | .ok (some ft, t1) => .ok (some ft, t1)
      | .ok (none, t1) =>
        match (if check s [0x4d, 0x4d] then readTiffHeader true s t1 else .ok (none, t1)) with
        | .error e => .error e
        | .ok (some ft, t2) => .ok (some ft, t2)
        | .ok (none, t2) =>
          if checkString s "MAC " then .ok (some ⟨"ape", "audio/ape"⟩, t2)
          else if check s [0x1a, 0x45, 0xdf, 0xa3] then ebmlArm t2
          else if let some r := sigsSqliteToBlender s then .ok (some r, t2)
          else if checkString s "!<arch>" then archArm t2
          else if let some r := sigsWebvtt s then .ok (some r, t2)
          else if check s [0x89, 0x50, 0x4e, 0x47, 0x0d, 0x0a, 0x1a, 0x0a] then
            pngArm fuel t2
          else if let some r := sigsArrowToRw2 s then .ok (some r, t2)
          else if check s [0x30, 0x26, 0xb2, 0x75, 0x8e, 0x66, 0xcf, 0x11, 0xa6, 0xd9] then
            asfArm fuel t2
          else if let some r := sigsKtxToJ2c s then .ok (some r, t2)
          else if check s [0x00, 0x00, 0x00, 0x0c, 0x6a, 0x50, 0x20, 0x20, 0x0d, 0x0a,
              0x87, 0x0a] then
            jp2kArm t2
          else if let some r := sigsJxl s then .ok (some r, t2)
          else if check s [0xfe, 0xff] then .ok (utf16beArm s, t2)
          else if check s [0xd0, 0xcf, 0x11, 0xe0, 0xa1, 0xb1, 0x1a, 0xe1] then
            .ok (some ⟨"cfb", "application/x-cfb"⟩, t2)
          else
            let s256 := peekSample s (min 256 t2.sizeN) t2
            if let some r := sigs256Block E s256 then .ok (some r, t2)
            else
              let s512 := peekSample s256 (min 512 t2.sizeN) t2
              if tarGuard s512 then .ok (some ⟨"tar", "application/x-tar"⟩, t2)
              else if check s512 [0xff, 0xfe] then .ok (utf16leArm s512, t2)
              else if checkString s512 "-----BEGIN PGP MESSAGE-----" then
                .ok (some ⟨"pgp", "application/pgp-encrypted"⟩, t2)
              else .ok (none, t2)

/-- `fromTokenizer`: snapshot the entry position, then run the detectors in
order — the user-supplied detector functions first, then the confident and
the imprecise built-in.  `customs` is the list of custom detector functions
and `tol` the MPEG offset tolerance; the source iterates `this.detectors`,
which the constructor fixes to exactly this sequence (the loop form is
recovered by `fromTokenizer_eq_runDetectors` below). -/
def fromTokenizer : Nat → Ext → List (Tok → DetRes) → Nat → Tok → DetRes
  | 0, _, _, _, _ => .error .fuelOut
  | fuel + 1, E, customs, tol, t =>
    let initialPosition := t.pos
    match runCustoms customs initialPosition t with
    | .error e => .error e
    | .ok (some ft, t1) => .ok (some ft, t1)
    | .ok (none, t1) =>
      if initialPosition ≠ t1.pos then .ok (none, t1)
      else
        match detectConfident fuel E customs tol t1 with
        | .error e => .error e
        | .ok (some ft, t2) => .ok (some ft, t2)
        | .ok (none, t2) =>
          if initialPosition ≠ t2.pos then .ok (none, t2)
          else
            match detectImprecise tol t2 with
            | .error e => .error e
            | .ok (some ft, t3) => .ok (some ft, t3)
            | .ok (none, t3) => .ok (none, t3)

end

/-- `fromBuffer`: inputs of length at most one yield no match before any
detector (or even the tokenizer) is constructed.  (The `TypeError` branch
for non-byte inputs is outside the model: the argument type already is a
byte list.) -/
def fromBuffer (fuel : Nat) (E : Ext) (customs : List (Tok → DetRes)) (tol : Nat)
    (input : List Nat) : Except DetErr (Option FileTypeResult) :=
  if input.length > 1 then
    (fromTokenizer fuel E customs tol (mkBufTok input)).map (fun x => x.1)
  else .ok none

/-! ### Detector descriptors (the `this.detectors` view of the pipeline) -/

/-- A detector descriptor: identity string and detection function (the
optional `fileType` argument of the source is always passed as `undefined`
by the pipeline and is omitted). -/
structure Detector where
  id : String
  detect : Tok → DetRes

/-- The detector loop of `fromTokenizer` over descriptor form. -/
def runDetectors (dets : List Detector) (initialPosition : Nat) (t : Tok) : DetRes :=
  runCustoms (dets.map Detector.detect) initialPosition t

/-- The detector list built by the `FileTypeParser` constructor: the
user-supplied detectors first, then `"core"`, then `"core.imprecise"`. -/
def mkDetectors (fuel : Nat) (E : Ext) (customs : List Detector) (tol : Nat) :
    List Detector :=
  customs ++
    [⟨"core", detectConfident fuel E (customs.map Detector.detect) tol⟩,
     ⟨"core.imprecise", detectImprecise tol⟩]

/-- Sequencing of one detector outcome with the rest of the pipeline: pass
errors and results through; on an empty result, halt with "unknown" when the
position moved away from the snapshot, otherwise continue. -/
def detChain : DetRes → Nat → (Tok → DetRes) → DetRes
  | .error e, _, _ => .error e
  | .ok (some ft, t'), _, _ => .ok (some ft, t')
  | .ok (none, t'), p0, k => if p0 ≠ t'.pos then .ok (none, t') else k t'

/-- A detector that always reports a result. -/
def detYes : Detector := ⟨"unicorn", fun t => .ok (some ⟨"unicorn", "application/unicorn"⟩, t)⟩

/-- A detector that consumes one byte and reports nothing. -/
def detMove : Detector := ⟨"mover", fun t => .ok (none, { t with pos := t.pos + 1 })⟩

/-- A detector that reports nothing and does not touch the tokenizer. -/
def detIdle : Detector := ⟨"idle", fun t => .ok (none, t)⟩

/-! ### A trivial external-collaborator instance and concrete inputs -/

/-- An arbitrary `Ext` instance; the concrete runs below never consult the
external collaborators (their guards do not match). -/
def extNull : Ext := ⟨fun _ => [], fun _ => 0, fun _ => [], fun _ => 0, fun _ => false⟩

/-- An EBML stream: root element `1A 45 DF A3` of payload length 3, a
DocType child `42 82` of length 1 with content `"x"`, which is neither
`webm` nor `matroska`. -/
def ebmlInput : List Nat := [0x1a, 0x45, 0xdf, 0xa3, 0x83, 0x42, 0x82, 0x81, 0x78]

/-- An ID3 input of exactly 13 bytes whose sync-safe length is 3, so that
`position + length = size`: `"ID3"`, three header bytes, the sync-safe
length `00 00 00 03`, and three trailing bytes. -/
def id3Input : List Nat := [0x49, 0x44, 0x33, 0, 0, 0, 0, 0, 0, 3, 0, 0, 0]

/-- Ten zero bytes followed by an MPEG layer-3 frame sync (`FF E2`). -/
def mpegAt10Input : List Nat := [0, 0, 0, 0, 0, 0, 0, 0, 0, 0, 0xff, 0xe2]

/-! ### Claim-side formulations -/

/-- The sync-safe value as the specification words it: the high bit of every
one of the four bytes masked off before combining. -/
def claimSyncSafe (b0 b1 b2 b3 : Nat) : Nat :=
  ((b0 &&& 0x7f) <<< 21) ||| ((b1 &&& 0x7f) <<< 14) ||| ((b2 &&& 0x7f) <<< 7) ||| (b3 &&& 0x7f)

/-- The pattern predicate as the claim words it: for every index into the
header list, the (masked) sample byte equals the header byte, where an index
past the end of the sample reads as zero in both the masked and the unmasked
case. -/
def claimCheck (buffer headers : List Nat) (offset : Nat) (mask : Option (List Nat)) : Bool :=
  (List.range headers.length).all fun i =>
    match mask with
    | some m => headers.getD i 0 == m.getD i 0 &&& buffer.getD (offset + i) 0
    | none => headers.getD i 0 == buffer.getD (offset + i) 0

/-- The declared TAR checksum as the claim words it: the six bytes at offset
148, truncated at the first NUL, trimmed, and parsed as an octal number. -/
def claimTarReadSum (B : List Nat) : Option Int :=
  jsParseIntOct (jsTrim (truncAtNul (utf8Decode ((B.drop 148).take 6))))

/-- The §4.6 checksum definition relativized to a header at `offset`: the
declared sum is read at `offset + 148` (inside the header), the byte sums
range over the header block. -/
def spec46TarChecksum (B : List Nat) (offset : Nat) : Bool :=
  match jsParseIntOct (jsTrim (replaceNulToEnd (utf8Decode ((B.drop (offset + 148)).take 6)))) with
  | none => false
  | some readSum =>
    readSum == ((8 * 0x20 + sumRange B offset 148 + sumRange B (offset + 156) 356 : Nat) : Int)

/-- A 512-byte TAR header block placed at `offset` in an otherwise zero
buffer: the checksum field (at `offset + 148`) holds the octal string
`"000400"`, and `0o400 = 256 = 8 * 0x20` is exactly the checksum of the
all-zero block. -/
def tarHeaderAt (offset : Nat) : List Nat :=
  List.replicate (offset + 148) 0 ++ [48, 48, 48, 52, 48, 48] ++ List.replicate 358 0

/-! ## Helper lemmas -/

theorem checkFrom_eq_true_iff (buffer headers : List Nat) (offset : Nat)
    (mask : Option (List Nat)) :
    ∀ i, (_checkFrom buffer headers offset i mask = true ↔
      ∀ j < headers.length,
        _checkAt buffer (i + j + offset) (headers.getD j 0)
          (mask.map fun m => m.getD (i + j) 0) = true) := by
  induction headers with
  | nil => intro i; simp [_checkFrom]
  | cons h rest ih =>
    intro i
    simp only [_checkFrom, Bool.and_eq_true, ih (i + 1), List.length_cons]
    constructor
    · rintro ⟨h1, h2⟩ j hj
      cases j with
      | zero => simpa using h1
      | succ j' =>
        have := h2 j' (by omega)
        have e : i + 1 + j' = i + (j' + 1) := by omega
        rw [e] at this
        simpa using this
    · intro hAll
      refine ⟨by simpa using hAll 0 (by omega), fun j hj => ?_⟩
      have := hAll (j + 1) (by omega)
      have e : i + (j + 1) = i + 1 + j := by omega
      rw [e] at this
      simpa using this

/-! ## The claims -/

/-- C3 counterexample: at bytes `00 80 00 00` the reader yields `0x80 << 14`
while the claimed all-bytes-masked formula yields `0`. -/
theorem c3_counterexample :
    uint32SyncSafeToken_get [0, 0x80, 0, 0] 0 = 0x200000 ∧
      claimSyncSafe 0 0x80 0 0 = 0 ∧ (0x200000 : Nat) ≠ 0 := by
  refine ⟨by decide, by decide, by decide⟩

/-- C3 (amended): the reader returns
`(b3 & 0x7F) | b2 << 7 | b1 << 14 | b0 << 21` — only the last byte is
masked — which coincides with the claimed formula whenever each of the
first three bytes has its high bit clear. -/
theorem c3_syncsafe_amended (b0 b1 b2 b3 : Nat) (h0 : b0 < 0x80) (h1 : b1 < 0x80)
    (h2 : b2 < 0x80) :
    uint32SyncSafeToken_get [b0, b1, b2, b3] 0 = claimSyncSafe b0 b1 b2 b3 := by
  have e : ∀ b : Nat, b < 0x80 → b &&& 0x7f = b := by
    intro b hb
    have h := Nat.and_pow_two_sub_one_eq_mod b 7
    norm_num at h
    rw [h]
    exact Nat.mod_eq_of_lt hb
  unfold uint32SyncSafeToken_get claimSyncSafe
  norm_num [List.getD]
  rw [e b0 h0, e b1 h1, e b2 h2]
  have lc : ∀ a b c : Nat, a ||| (b ||| c) = b ||| (a ||| c) := by
    intro a b c
    rw [← Nat.lor_assoc, Nat.lor_comm a b, Nat.lor_assoc]
  simp [Nat.lor_assoc, Nat.lor_comm, lc]

theorem c3_syncsafe_amended_witness :
    (1 : Nat) < 0x80 ∧ (2 : Nat) < 0x80 ∧ (3 : Nat) < 0x80 ∧
      uint32SyncSafeToken_get [1, 2, 3, 0x85] 0 = claimSyncSafe 1 2 3 0x85 :=
  ⟨by decide, by decide, by decide,
    c3_syncsafe_amended 1 2 3 0x85 (by decide) (by decide) (by decide)⟩

/-- C5 counterexample: on an empty sample with header list `[0]` and no
mask, `_check` fails (the out-of-range JavaScript read yields `undefined`,
which never equals a number), while the claimed reads-as-zero semantics
would succeed. -/
theorem c5_counterexample :
    _check [] [0] 0 none = false ∧ claimCheck [] [0] 0 none = true := by
  refine ⟨by decide, by decide⟩

/-- C5 (amended): the pattern predicate matches iff every header byte
agrees with the sample, where an out-of-range index reads as zero in the
masked case but never matches in the unmasked case. -/
theorem c5_check_amended (buffer headers : List Nat) (offset : Nat)
    (mask : Option (List Nat)) :
    _check buffer headers offset mask = true ↔
      ∀ i < headers.length,
        (match mask with
         | some m => headers.getD i 0 = m.getD i 0 &&& buffer.getD (offset + i) 0
         | none => buffer.get? (offset + i) = some (headers.getD i 0)) := by
  rw [_check, checkFrom_eq_true_iff]
  refine forall_congr' fun i => imp_congr_right fun _ => ?_
  have e : 0 + i + offset = offset + i := by omega
  rw [e]
  cases mask with
  | none =>
    simp only [_checkAt, Option.map_none']
    cases hg : buffer.get? (offset + i) with
    | none => simp [hg]
    | some b =>
      simp only [hg, beq_iff_eq, Option.some.injEq]
      exact eq_comm
  | some m =>
    simp only [_checkAt, Option.map_some', beq_iff_eq, Nat.zero_add]

theorem utf16le_roundtrip_aux (s : List Nat) (h : ∀ u ∈ s, u < 65536) :
    utf16leDecodeUnits (s.flatMap fun code => [code &&& 0xff, (code >>> 8) &&& 0xff]) = s := by
  induction s with
  | nil => rfl
  | cons u rest ih =>
    have hu : u < 65536 := h u (by simp)
    have m1 : u &&& 255 = u % 256 := by
      have := Nat.and_pow_two_sub_one_eq_mod u 8
      norm_num at this
      exact this
    have m2 : (u >>> 8) &&& 255 = u / 256 % 256 := by
      rw [Nat.shiftRight_eq_div_pow]
      have := Nat.and_pow_two_sub_one_eq_mod (u / 2 ^ 8) 8
      norm_num at this ⊢
      exact this
    have hv : (u &&& 0xff) + 256 * ((u >>> 8) &&& 0xff) = u := by
      norm_num [m1, m2]
      omega
    have ih' := ih fun v hv => h v (by simp [hv])
    rw [show ((u :: rest).flatMap fun code => [code &&& 0xff, (code >>> 8) &&& 0xff]) =
      (u &&& 0xff) :: ((u >>> 8) &&& 0xff) ::
        (rest.flatMap fun code => [code &&& 0xff, (code >>> 8) &&& 0xff]) from rfl]
    rw [utf16leDecodeUnits, hv, ih']

theorem utf16be_roundtrip_aux (s : List Nat) (h : ∀ u ∈ s, u < 65536) :
    utf16beDecodeUnits (s.flatMap fun code => [(code >>> 8) &&& 0xff, code &&& 0xff]) = s := by
  induction s with
  | nil => rfl
  | cons u rest ih =>
    have hu : u < 65536 := h u (by simp)
    have m1 : u &&& 255 = u % 256 := by
      have := Nat.and_pow_two_sub_one_eq_mod u 8
      norm_num at this
      exact this
    have m2 : (u >>> 8) &&& 255 = u / 256 % 256 := by
      rw [Nat.shiftRight_eq_div_pow]
      have := Nat.and_pow_two_sub_one_eq_mod (u / 2 ^ 8) 8
      norm_num at this ⊢
      exact this
    have hv : 256 * ((u >>> 8) &&& 0xff) + (u &&& 0xff) = u := by
      norm_num [m1, m2]
      omega
    have ih' := ih fun v hv => h v (by simp [hv])
    rw [show ((u :: rest).flatMap fun code => [(code >>> 8) &&& 0xff, code &&& 0xff]) =
      ((u >>> 8) &&& 0xff) :: (u &&& 0xff) ::
        (rest.flatMap fun code => [(code >>> 8) &&& 0xff, code &&& 0xff]) from rfl]
    rw [utf16beDecodeUnits, hv, ih']

/-- C8: `stringToBytes` followed by decoding under the same encoding is the
identity on every JavaScript string (every list of UTF-16 code units,
covering plain BMP characters and surrogate pairs alike), for UTF-16LE and
UTF-16BE. -/
theorem c8_stringToBytes_roundtrip (s : List Nat) (h : ∀ u ∈ s, u < 65536) :
    utf16leDecodeUnits (stringToBytes s (some "utf-16le")) = s ∧
      utf16beDecodeUnits (stringToBytes s (some "utf-16be")) = s := by
  constructor
  · rw [stringToBytes, if_pos rfl]
    exact utf16le_roundtrip_aux s h
  · rw [stringToBytes, if_neg (by decide), if_pos rfl]
    exact utf16be_roundtrip_aux s h

theorem c8_stringToBytes_roundtrip_witness :
    (∀ u ∈ strUnits "A😀", u < 65536) ∧
      (utf16leDecodeUnits (stringToBytes (strUnits "A😀") (some "utf-16le")) = strUnits "A😀" ∧
        utf16beDecodeUnits (stringToBytes (strUnits "A😀") (some "utf-16be")) = strUnits "A😀") :=
  ⟨by decide, c8_stringToBytes_roundtrip (strUnits "A😀") (by decide)⟩

/-- C9: `fromBuffer` yields no match for buffers of length 0 or 1 before
consulting any detector — custom ones included — and hands buffers of
length 2 or more to the detector pipeline. -/
theorem c9_fromBuffer_short (fuel : Nat) (E : Ext) (customs : List (Tok → DetRes))
    (tol : Nat) (input : List Nat) :
    (input.length ≤ 1 → fromBuffer fuel E customs tol input = .ok none) ∧
      (2 ≤ input.length → fromBuffer fuel E customs tol input =
        (fromTokenizer fuel E customs tol (mkBufTok input)).map Prod.fst) := by
  refine ⟨fun h => ?_, fun h => ?_⟩
  · rw [fromBuffer, if_neg (by omega)]
  · rw [fromBuffer, if_pos (by omega)]

theorem c9_fromBuffer_short_witness :
    ([0x42] : List Nat).length ≤ 1 ∧
      fromBuffer 3 extNull [fun t => .ok (some ⟨"bmp", "image/bmp"⟩, t)] 0 [0x42] = .ok none :=
  ⟨by decide,
    (c9_fromBuffer_short 3 extNull [fun t => .ok (some ⟨"bmp", "image/bmp"⟩, t)] 0 [0x42]).1
      (by decide)⟩

theorem runCustoms_append (ds₁ ds₂ : List (Tok → DetRes)) (p0 : Nat) (t : Tok)
    (h : t.pos = p0) :
    runCustoms (ds₁ ++ ds₂) p0 t = detChain (runCustoms ds₁ p0 t) p0 (runCustoms ds₂ p0) := by
  induction ds₁ generalizing t with
  | nil =>
    show runCustoms ds₂ p0 t = detChain (Except.ok (none, t)) p0 (runCustoms ds₂ p0)
    rw [show detChain (Except.ok (none, t)) p0 (runCustoms ds₂ p0)
        = (if p0 ≠ t.pos then Except.ok (none, t) else runCustoms ds₂ p0 t) from rfl,
      if_neg (by omega)]
  | cons d rest ih =>
    simp only [List.cons_append, runCustoms]
    cases hd : d t with
    | error e => rfl
    | ok pr =>
      obtain ⟨r, t1⟩ := pr
      cases r with
      | some ft => rfl
      | none =>
        show (if p0 ≠ t1.pos then Except.ok (none, t1) else runCustoms (rest ++ ds₂) p0 t1)
          = detChain (if p0 ≠ t1.pos then Except.ok (none, t1) else runCustoms rest p0 t1)
              p0 (runCustoms ds₂ p0)
        by_cases hp : p0 ≠ t1.pos
        · rw [if_pos hp, if_pos hp,
            show detChain (Except.ok (none, t1)) p0 (runCustoms ds₂ p0)
              = (if p0 ≠ t1.pos then Except.ok (none, t1) else runCustoms ds₂ p0 t1) from rfl,
            if_pos hp]
        · rw [if_neg hp, if_neg hp]
          exact ih t1 (by omega)

theorem fromTokenizer_eq_runDetectors (fuel : Nat) (E : Ext) (customs : List Detector)
    (tol : Nat) (t : Tok) :
    fromTokenizer (fuel + 1) E (customs.map Detector.detect) tol t =
      runDetectors (mkDetectors fuel E customs tol) t.pos t := by
  rw [runDetectors, mkDetectors, List.map_append,
    runCustoms_append _ _ _ _ rfl, fromTokenizer]
  cases hc : runCustoms (customs.map Detector.detect) t.pos t with
  | error e => rfl
  | ok pr =>
    obtain ⟨r, t1⟩ := pr
    cases r with
    | some ft => rfl
    | none =>
      show (if t.pos ≠ t1.pos then Except.ok (none, t1)
          else match detectConfident fuel E (customs.map Detector.detect) tol t1 with
            | .error e => .error e
            | .ok (some ft, t2) => .ok (some ft, t2)
            | .ok (none, t2) =>
              if t.pos ≠ t2.pos then Except.ok (none, t2)
              else match detectImprecise tol t2 with
                | .error e => .error e
                | .ok (some ft, t3) => .ok (some ft, t3)
                | .ok (none, t3) => .ok (none, t3)) =
        (if t.pos ≠ t1.pos then Except.ok (none, t1)
          else runCustoms [detectConfident fuel E (customs.map Detector.detect) tol,
            detectImprecise tol] t.pos t1)
      by_cases hp : t.pos ≠ t1.pos
      · rw [if_pos hp, if_pos hp]
      · rw [if_neg hp, if_neg hp,
          show runCustoms [detectConfident fuel E (customs.map Detector.detect) tol,
              detectImprecise tol] t.pos t1
            = (match detectConfident fuel E (customs.map Detector.detect) tol t1 with
                | .error e => .error e
                | .ok (some ft, t2) => .ok (some ft, t2)
                | .ok (none, t2) =>
                  if t.pos ≠ t2.pos then Except.ok (none, t2)
                  else runCustoms [detectImprecise tol] t.pos t2) from rfl]
        cases hconf : detectConfident fuel E (customs.map Detector.detect) tol t1 with
        | error e => rfl
        | ok pr2 =>
          obtain ⟨r2, t2⟩ := pr2
          cases r2 with
          | some ft => rfl
          | none =>
            show (if t.pos ≠ t2.pos then Except.ok (none, t2)
                else match detectImprecise tol t2 with
                  | .error e => .error e
                  | .ok (some ft, t3) => .ok (some ft, t3)
                  | .ok (none, t3) => .ok (none, t3)) =
              (if t.pos ≠ t2.pos then Except.ok (none, t2)
                else runCustoms [detectImprecise tol] t.pos t2)
            by_cases hp2 : t.pos ≠ t2.pos
            · rw [if_pos hp2, if_pos hp2]
            · rw [if_neg hp2, if_neg hp2,
                show runCustoms [detectImprecise tol] t.pos t2
                  = (match detectImprecise tol t2 with
                      | .error e => .error e
                      | .ok (some ft, t3) => .ok (some ft, t3)
                      | .ok (none, t3) =>
                        if t.pos ≠ t3.pos then Except.ok (none, t3)
                        else Except.ok (none, t3)) from rfl]
              cases himp : detectImprecise tol t2 with
              | error e => rfl
              | ok pr3 =>
                obtain ⟨r3, t3⟩ := pr3
                cases r3 with
                | some ft => rfl
                | none =>
                  show Except.ok (none, t3) =
                    (if t.pos ≠ t3.pos then Except.ok (none, t3) else Except.ok (none, t3))
                  rw [ite_self]

/-- C2: the pipeline is the detector loop over the constructor's list —
user-supplied detectors first, then `"core"`, then `"core.imprecise"` — and
that loop returns the first non-empty result; a detector that returns
nothing after moving the position makes the pipeline yield "unknown"
immediately, independently of all later detectors; if every detector
returns nothing without moving the position, the pipeline yields
"unknown". -/
theorem c2_pipeline (fuel : Nat) (E : Ext) (customs : List Detector) (tol : Nat) (t : Tok) :
    ((mkDetectors fuel E customs tol).map Detector.id
        = customs.map Detector.id ++ ["core", "core.imprecise"]) ∧
      (fromTokenizer (fuel + 1) E (customs.map Detector.detect) tol t
        = runDetectors (mkDetectors fuel E customs tol) t.pos t) ∧
      (∀ (d : Detector) (ds : List Detector) (p0 : Nat) (t0 : Tok) (r : FileTypeResult)
          (t1 : Tok), d.detect t0 = .ok (some r, t1) →
        runDetectors (d :: ds) p0 t0 = .ok (some r, t1)) ∧
      (∀ (d : Detector) (ds : List Detector) (p0 : Nat) (t0 t1 : Tok),
          d.detect t0 = .ok (none, t1) → t1.pos ≠ p0 →
        runDetectors (d :: ds) p0 t0 = .ok (none, t1)) ∧
      (∀ (d : Detector) (ds : List Detector) (p0 : Nat) (t0 t1 : Tok),
          d.detect t0 = .ok (none, t1) → t1.pos = p0 →
        runDetectors (d :: ds) p0 t0 = runDetectors ds p0 t1) ∧
      (∀ (p0 : Nat) (t0 : Tok), runDetectors ([] : List Detector) p0 t0 = .ok (none, t0)) := by
  refine ⟨?_, fromTokenizer_eq_runDetectors fuel E customs tol t, ?_, ?_, ?_, ?_⟩
  · simp [mkDetectors]
  · intro d ds p0 t0 r t1 hd
    simp [runDetectors, runCustoms, hd]
  · intro d ds p0 t0 t1 hd hp
    simp only [runDetectors, List.map_cons, runCustoms, hd]
    rw [if_pos (by omega)]
  · intro d ds p0 t0 t1 hd hp
    simp only [runDetectors, List.map_cons, runCustoms, hd]
    rw [if_neg (by omega)]
  · intro p0 t0
    rfl

theorem jsWhitespace_zero : jsWhitespace 0 = false := by decide

theorem isOctDigit_zero : isOctDigit 0 = false := by decide

theorem ws_not_oct (c : Nat) (h : jsWhitespace c = true) : isOctDigit c = false := by
  by_contra hoct
  rw [Bool.not_eq_false] at hoct
  simp only [isOctDigit, Bool.and_eq_true, decide_eq_true_eq] at hoct
  simp only [jsWhitespace, Bool.or_eq_true, beq_iff_eq, Bool.and_eq_true,
    decide_eq_true_eq] at h
  omega

theorem parseSignSplit_nil : parseSignSplit [] = (1, []) := rfl

theorem jsParseIntOct_eq_parts (l : List Nat) :
    jsParseIntOct l =
      (if ((parseSignSplit (l.dropWhile jsWhitespace)).2.takeWhile isOctDigit).isEmpty then
        none
      else
        some ((parseSignSplit (l.dropWhile jsWhitespace)).1 *
          (octDigitsVal ((parseSignSplit (l.dropWhile jsWhitespace)).2.takeWhile isOctDigit) :
            Int))) := rfl

theorem parseSignSplit_other (c : Nat) (r : List Nat) (h43 : c ≠ 43) (h45 : c ≠ 45) :
    parseSignSplit (c :: r) = (1, c :: r) := by
  rw [parseSignSplit.eq_def]
  split
  · next heq => cases heq; exact absurd rfl h43
  · next heq => cases heq; exact absurd rfl h45
  · rfl

theorem parse_congr (c : Nat) (xs ys : List Nat) (l₁ l₂ : List Nat)
    (h₁ : l₁.dropWhile jsWhitespace = c :: xs) (h₂ : l₂.dropWhile jsWhitespace = c :: ys)
    (ht : xs.takeWhile isOctDigit = ys.takeWhile isOctDigit) :
    jsParseIntOct l₁ = jsParseIntOct l₂ := by
  rw [jsParseIntOct_eq_parts, jsParseIntOct_eq_parts, h₁, h₂]
  by_cases h43 : c = 43
  · subst h43
    simp [parseSignSplit, ht]
  by_cases h45 : c = 45
  · subst h45
    simp [parseSignSplit, ht]
  · rw [parseSignSplit_other c xs h43 h45, parseSignSplit_other c ys h43 h45]
    simp [List.takeWhile_cons, ht]

theorem parse_nil_congr (l₁ l₂ : List Nat) (h₁ : l₁.dropWhile jsWhitespace = [])
    (h₂ : l₂.dropWhile jsWhitespace = []) : jsParseIntOct l₁ = jsParseIntOct l₂ := by
  rw [jsParseIntOct_eq_parts, jsParseIntOct_eq_parts, h₁, h₂]

theorem dropWhile_ws_truncAtNul (l : List Nat) :
    (truncAtNul l).dropWhile jsWhitespace = truncAtNul (l.dropWhile jsWhitespace) := by
  induction l with
  | nil => rfl
  | cons c r ih =>
    by_cases h0 : c = 0
    · subst h0
      simp [truncAtNul, List.dropWhile_cons, jsWhitespace_zero]
    · by_cases hws : jsWhitespace c = true
      · have hoct : (c != 0) = true := by simp [h0]
        simp only [truncAtNul, List.takeWhile_cons, hoct, if_true, List.dropWhile_cons, hws,
          if_true] at ih ⊢
        exact ih
      · have hne : (c != 0) = true := by simp [h0]
        simp [truncAtNul, List.takeWhile_cons, hne, List.dropWhile_cons, hws]

theorem takeWhile_oct_truncAtNul (l : List Nat) :
    (truncAtNul l).takeWhile isOctDigit = l.takeWhile isOctDigit := by
  induction l with
  | nil => rfl
  | cons c r ih =>
    by_cases h0 : c = 0
    · subst h0
      simp [truncAtNul, List.takeWhile_cons, isOctDigit_zero]
    · have hne : (c != 0) = true := by simp [h0]
      by_cases hoct : isOctDigit c = true
      · simp only [truncAtNul, List.takeWhile_cons, hne, if_true, hoct] at ih ⊢
        rw [ih]
      · simp [truncAtNul, List.takeWhile_cons, hne, hoct]

theorem parse_truncAtNul (l : List Nat) :
    jsParseIntOct (truncAtNul l) = jsParseIntOct l := by
  have hL1 := dropWhile_ws_truncAtNul l
  cases hw : l.dropWhile jsWhitespace with
  | nil =>
    apply parse_nil_congr
    · rw [hL1, hw]; rfl
    · exact hw
  | cons c r =>
    by_cases hc : c = 0
    · subst hc
      rw [jsParseIntOct_eq_parts, jsParseIntOct_eq_parts, hw, hL1, hw]
      have h1 : truncAtNul (0 :: r) = [] := by simp [truncAtNul]
      rw [h1, parseSignSplit_nil, parseSignSplit_other 0 r (by omega) (by omega)]
      simp [List.takeWhile_cons, isOctDigit_zero]
    · apply parse_congr c (truncAtNul r) r
      · rw [hL1, hw]
        simp [truncAtNul, List.takeWhile_cons, hc]
      · exact hw
      · exact takeWhile_oct_truncAtNul r

theorem takeWhile_oct_append_ws (xs v : List Nat) (hv : ∀ c ∈ v, jsWhitespace c = true) :
    (xs ++ v).takeWhile isOctDigit = xs.takeWhile isOctDigit := by
  have hvnil : v.takeWhile isOctDigit = [] := by
    cases v with
    | nil => rfl
    | cons d w => simp [List.takeWhile_cons, ws_not_oct d (hv d (by simp))]
  rw [List.takeWhile_append]
  split
  · next hlen =>
    rw [hvnil, List.append_nil]
    exact (List.IsPrefix.eq_of_length ( List.takeWhile_prefix _) hlen).symm
  · rfl

theorem parse_append_ws (u v : List Nat) (hv : ∀ c ∈ v, jsWhitespace c = true)
    (hu : ∃ c ∈ u, jsWhitespace c = false) : jsParseIntOct (u ++ v) = jsParseIntOct u := by
  have hne : u.dropWhile jsWhitespace ≠ [] := by
    rw [Ne, List.dropWhile_eq_nil_iff]
    push_neg
    obtain ⟨c, hc, hcw⟩ := hu
    exact ⟨c, hc, by simp [hcw]⟩
  obtain ⟨c, xs, hcx⟩ : ∃ c xs, u.dropWhile jsWhitespace = c :: xs := by
    cases h : u.dropWhile jsWhitespace with
    | nil => exact absurd h hne
    | cons c xs => exact ⟨c, xs, rfl⟩
  have happ : (u ++ v).dropWhile jsWhitespace = c :: (xs ++ v) := by
    rw [List.dropWhile_append]
    simp [hcx]
  exact parse_congr c (xs ++ v) xs _ _ happ hcx (takeWhile_oct_append_ws xs v hv)

theorem parse_trimStart (l : List Nat) :
    jsParseIntOct (jsTrimStart l) = jsParseIntOct l := by
  rw [jsParseIntOct_eq_parts, jsParseIntOct_eq_parts, jsTrimStart,
    List.dropWhile_idempotent]

theorem parse_trimEnd (l : List Nat) : jsParseIntOct (jsTrimEnd l) = jsParseIntOct l := by
  by_cases hall : ∀ c ∈ l, jsWhitespace c = true
  · have h1 : jsTrimEnd l = [] := by
      rw [jsTrimEnd]
      have : l.reverse.dropWhile jsWhitespace = [] := by
        rw [List.dropWhile_eq_nil_iff]
        intro x hx
        exact hall x (List.mem_reverse.mp hx)
      rw [this]
      rfl
    have h2 : l.dropWhile jsWhitespace = [] := List.dropWhile_eq_nil_iff.mpr hall
    rw [h1]
    exact parse_nil_congr [] l rfl h2
  · push_neg at hall
    obtain ⟨c0, hc0, hc0w⟩ := hall
    have hdecomp : l = jsTrimEnd l ++ (l.reverse.takeWhile jsWhitespace).reverse := by
      conv_lhs => rw [← l.reverse_reverse,
        ← List.takeWhile_append_dropWhile (p := jsWhitespace) (l := l.reverse)]
      rw [List.reverse_append]
      rfl
    have hv : ∀ c ∈ (l.reverse.takeWhile jsWhitespace).reverse, jsWhitespace c = true := by
      intro c hc
      exact List.mem_takeWhile_imp (List.mem_reverse.mp hc)
    have hu : ∃ c ∈ jsTrimEnd l, jsWhitespace c = false := by
      refine ⟨c0, ?_, by simp [hc0w]⟩
      have : c0 ∈ jsTrimEnd l ++ (l.reverse.takeWhile jsWhitespace).reverse := hdecomp ▸ hc0
      rcases List.mem_append.mp this with h | h
      · exact h
      · have := hv c0 h
        rw [this] at hc0w
        exact absurd hc0w (by simp)
    conv_rhs => rw [hdecomp]
    exact (parse_append_ws (jsTrimEnd l) _ hv hu).symm

theorem parse_trim (l : List Nat) : jsParseIntOct (jsTrim l) = jsParseIntOct l := by
  rw [jsTrim, parse_trimEnd, parse_trimStart]

theorem nulMatchIdx_sound (l : List Nat) :
    ∀ i, nulMatchIdx l = some i → l.get? i = some 0 := by
  induction l with
  | nil => intro i h; simp [nulMatchIdx] at h
  | cons c r ih =>
    intro i h
    rw [nulMatchIdx] at h
    split at h
    · next hc =>
      have h0 : i = 0 := by simpa using h.symm
      subst h0
      simp [hc.1]
    · cases hm : nulMatchIdx r with
      | none => rw [hm] at h; simp at h
      | some j =>
        rw [hm] at h
        simp only [Option.map_some', Option.some.injEq] at h
        subst h
        simpa using ih j hm

theorem truncAtNul_take_of_nul (l : List Nat) :
    ∀ i, l.get? i = some 0 → truncAtNul (l.take i) = truncAtNul l := by
  induction l with
  | nil => intro i h; simp at h
  | cons c r ih =>
    intro i h
    cases i with
    | zero =>
      have hc : c = 0 := by simpa using h
      subst hc
      simp [truncAtNul]
    | succ j =>
      have hr : r.get? j = some 0 := by simpa using h
      by_cases hc : c = 0
      · subst hc; simp [truncAtNul]
      · have hne : (c != 0) = true := by simp [hc]
        simp only [List.take_succ_cons, truncAtNul, List.takeWhile_cons, hne, if_true]
        exact congrArg (List.cons c) (ih j hr)

theorem truncAtNul_replaceNulToEnd (l : List Nat) :
    truncAtNul (replaceNulToEnd l) = truncAtNul l := by
  rw [replaceNulToEnd]
  cases hm : nulMatchIdx l with
  | none => rfl
  | some i => exact truncAtNul_take_of_nul l i (nulMatchIdx_sound l i hm)

/-- The declared TAR checksum computed by the code equals the claim-side
reading (truncate at the first NUL, then trim, then parse as octal). -/
theorem tarReadSum_eq_claim (B : List Nat) : tarReadSum B = claimTarReadSum B := by
  rw [tarReadSum, claimTarReadSum, parse_trim, parse_trim, ← parse_truncAtNul
    (replaceNulToEnd (utf8Decode ((B.drop 148).take 6))), truncAtNul_replaceNulToEnd,
    parse_truncAtNul]

/-- C6: on a 512-byte buffer the TAR checksum test (default offset)
succeeds exactly when the declared sum — the six bytes at offset 148,
truncated at the first NUL, trimmed and parsed as octal — equals
`8 * 0x20` plus the byte sums over `[0, 148)` and `[156, 512)`, and it
fails when that field does not parse as a number. -/
theorem c6_tarHeaderChecksumMatches (B : List Nat) (h : B.length = 512) :
    tarHeaderChecksumMatches B 0 = true ↔
      (match claimTarReadSum B with
       | some v => v = ((8 * 0x20 + sumRange B 0 148 + sumRange B 156 356 : Nat) : Int)
       | none => False) := by
  rw [tarHeaderChecksumMatches, ← tarReadSum_eq_claim]
  cases hr : tarReadSum B with
  | none => simp
  | some v =>
    show (v == _) = true ↔ _
    rw [beq_iff_eq]

theorem c6_tarHeaderChecksumMatches_witness :
    (List.replicate 512 0).length = 512 ∧
      (tarHeaderChecksumMatches (List.replicate 512 0) 0 = true ↔
        (match claimTarReadSum (List.replicate 512 0) with
         | some v => v = ((8 * 0x20 + sumRange (List.replicate 512 0) 0 148 +
             sumRange (List.replicate 512 0) 156 356 : Nat) : Int)
         | none => False)) :=
  ⟨by simp, c6_tarHeaderChecksumMatches (List.replicate 512 0) (by simp)⟩

theorem tarHeaderAt_getD_zero (offset idx : Nat)
    (h : idx < offset + 148 ∨ offset + 154 ≤ idx) :
    (tarHeaderAt offset).getD idx 0 = 0 := by
  rw [tarHeaderAt, List.getD_eq_getElem?_getD, List.append_assoc, List.getElem?_append]
  · rcases h with h | h
    · rw [if_pos (by simp [h]), List.getElem?_replicate, if_pos (by simpa using h)]
      rfl
    · rw [if_neg (by simp; omega)]
      rw [List.getElem?_append]
      rw [if_neg (by simp [List.length_replicate]; omega)]
      rw [List.getElem?_replicate]
      split <;> rfl

theorem sumRange_eq_zero (B : List Nat) (start len : Nat)
    (h : ∀ i < len, B.getD (start + i) 0 = 0) : sumRange B start len = 0 := by
  rw [sumRange]
  apply List.sum_eq_zero
  intro x hx
  obtain ⟨i, hi, rfl⟩ := List.mem_map.mp hx
  exact h i (List.mem_range.mp hi)

theorem tarHeaderAt_field148 (offset : Nat) (h : 154 ≤ offset) :
    ((tarHeaderAt offset).drop 148).take 6 = [0, 0, 0, 0, 0, 0] := by
  rw [tarHeaderAt, List.append_assoc,
    List.drop_append_of_le_length (by simp), List.drop_replicate,
    List.take_append_of_le_length (by simp; omega), List.take_replicate,
    show offset + 148 - 148 = offset from by omega, min_eq_left (by omega)]
  rfl

theorem tarHeaderAt_fieldOwn (offset : Nat) :
    ((tarHeaderAt offset).drop (offset + 148)).take 6 = [48, 48, 48, 52, 48, 48] := by
  rw [tarHeaderAt, List.append_assoc,
    List.drop_append_of_le_length (by simp), List.drop_replicate,
    show offset + 148 - (offset + 148) = 0 from by omega, List.replicate_zero,
    List.nil_append,
    List.take_append_of_le_length (by simp)]
  rfl

/-- C10: the TAR checksum test reads the declared octal field at absolute
offset 148 whatever the `offset` argument is, while the two byte sums range
over `[offset, offset + 148)` and `[offset + 156, offset + 512)`; it agrees
with the §4.6 per-header definition at offset 0, and disagrees with it on a
valid TAR header block placed at any offset past the declared field. -/
theorem c10_tarChecksum_offset :
    (∀ (B : List Nat) (offset : Nat),
        tarHeaderChecksumMatches B offset = true ↔
          (match claimTarReadSum B with
           | some v => v = ((8 * 0x20 + sumRange B offset 148 +
               sumRange B (offset + 156) 356 : Nat) : Int)
           | none => False)) ∧
      (∀ B : List Nat, tarHeaderChecksumMatches B 0 = spec46TarChecksum B 0) ∧
      (∀ offset : Nat, 154 ≤ offset →
        tarHeaderChecksumMatches (tarHeaderAt offset) offset = false ∧
          spec46TarChecksum (tarHeaderAt offset) offset = true) := by
  refine ⟨fun B offset => ?_, fun B => ?_, fun offset hoff => ?_⟩
  · rw [tarHeaderChecksumMatches, ← tarReadSum_eq_claim]
    cases hr : tarReadSum B with
    | none => simp
    | some v =>
      show (v == _) = true ↔ _
      rw [beq_iff_eq]
  · rw [tarHeaderChecksumMatches, spec46TarChecksum, tarReadSum,
      show (0 : Nat) + 148 = 148 from rfl]
  · have hsum1 : sumRange (tarHeaderAt offset) offset 148 = 0 :=
      sumRange_eq_zero _ _ _ fun i hi =>
        tarHeaderAt_getD_zero offset (offset + i) (Or.inl (by omega))
    have hsum2 : sumRange (tarHeaderAt offset) (offset + 156) 356 = 0 :=
      sumRange_eq_zero _ _ _ fun i hi =>
        tarHeaderAt_getD_zero offset (offset + 156 + i) (Or.inr (by omega))
    constructor
    · rw [tarHeaderChecksumMatches, tarReadSum, tarHeaderAt_field148 offset hoff]
      rfl
    · rw [spec46TarChecksum, tarHeaderAt_fieldOwn offset, hsum1, hsum2]
      rfl

theorem c10_tarChecksum_offset_witness :
    (154 : Nat) ≤ 512 ∧
      (tarHeaderChecksumMatches (tarHeaderAt 512) 512 = false ∧
        spec46TarChecksum (tarHeaderAt 512) 512 = true) :=
  ⟨by decide, c10_tarChecksum_offset.2.2 512 (by decide)⟩

theorem c2_pipeline_witness :
    detMove.detect (mkBufTok [1, 2]) = .ok (none, ⟨[1, 2], 1, some 2⟩) ∧
      (⟨[1, 2], 1, some 2⟩ : Tok).pos ≠ 0 ∧
      runDetectors [detMove, detYes] 0 (mkBufTok [1, 2]) = .ok (none, ⟨[1, 2], 1, some 2⟩) ∧
      detIdle.detect (mkBufTok [1, 2]) = .ok (none, mkBufTok [1, 2]) ∧
      runDetectors [detIdle, detYes] 0 (mkBufTok [1, 2])
        = .ok (some ⟨"unicorn", "application/unicorn"⟩, mkBufTok [1, 2]) := by
  have h := c2_pipeline 2 extNull [] 0 (mkBufTok [1, 2])
  refine ⟨rfl, by decide, ?_, rfl, ?_⟩
  · exact h.2.2.2.1 detMove [detYes] 0 (mkBufTok [1, 2]) ⟨[1, 2], 1, some 2⟩ rfl (by decide)
  · rw [h.2.2.2.2.1 detIdle [detYes] 0 (mkBufTok [1, 2]) (mkBufTok [1, 2]) rfl (by decide)]
    exact h.2.2.1 detYes [] 0 (mkBufTok [1, 2]) ⟨"unicorn", "application/unicorn"⟩
      (mkBufTok [1, 2]) rfl

theorem sampleBuf_get? (s : List Nat) (idx : Nat)
    (h : idx < reasonableDetectionSizeInBytes) :
    (sampleBuf s).get? idx = some (s.getD idx 0) := by
  rw [List.get?_eq_getElem?, sampleBuf, List.getElem?_append]
  by_cases hc : idx < s.length
  · rw [if_pos hc, List.getD_eq_getElem?_getD, List.getElem?_eq_getElem hc]
    rfl
  · rw [if_neg hc, List.getElem?_replicate, if_pos (by omega),
      List.getD_eq_default _ _ (by omega)]

theorem sampleBuf_getD (s : List Nat) (idx : Nat)
    (h : idx < reasonableDetectionSizeInBytes) :
    (sampleBuf s).getD idx 0 = s.getD idx 0 := by
  rw [List.getD_eq_getElem?_getD, ← List.get?_eq_getElem?, sampleBuf_get? s idx h]
  rfl

theorem checkAt_sampleBuf_unmasked (s : List Nat) (idx hd : Nat)
    (h : idx < reasonableDetectionSizeInBytes) :
    _checkAt (sampleBuf s) idx hd none = (hd == s.getD idx 0) := by
  simp only [_checkAt, ← List.get?_eq_getElem?, sampleBuf_get? s idx h]

theorem checkAt_sampleBuf_masked (s : List Nat) (idx hd m : Nat)
    (h : idx < reasonableDetectionSizeInBytes) :
    _checkAt (sampleBuf s) idx hd (some m) = (hd == m &&& s.getD idx 0) := by
  simp only [_checkAt, sampleBuf_getD s idx h]

theorem check_false_of_mismatch (s headers : List Nat) (i : Nat)
    (hi : i < headers.length) (hidx : i < reasonableDetectionSizeInBytes)
    (hne : ¬ headers.getD i 0 = s.getD i 0) :
    check s headers = false := by
  rw [Bool.eq_false_iff]
  intro hT
  rw [check, _check] at hT
  have hall := (checkFrom_eq_true_iff (sampleBuf s) headers 0 none 0).mp hT i hi
  rw [show ((none : Option (List Nat)).map fun m => m.getD (0 + i) 0) = none from rfl,
    show 0 + i + 0 = i from by omega,
    checkAt_sampleBuf_unmasked s i (headers.getD i 0) hidx, beq_iff_eq] at hall
  exact hne hall

theorem check_one_masked (s : List Nat) (off hd m : Nat)
    (hoff : off < reasonableDetectionSizeInBytes) :
    check s [hd] off (some [m]) = (hd == m &&& s.getD off 0) := by
  show (_checkAt (sampleBuf s) (0 + off) hd (some m) && true) = _
  rw [Bool.and_true, Nat.zero_add, checkAt_sampleBuf_masked s off hd m hoff]

theorem check_two_masked (s : List Nat) (off h0 h1 m0 m1 : Nat)
    (hoff : off + 1 < reasonableDetectionSizeInBytes) :
    check s [h0, h1] off (some [m0, m1]) =
      ((h0 == m0 &&& s.getD off 0) && (h1 == m1 &&& s.getD (off + 1) 0)) := by
  show (_checkAt (sampleBuf s) (0 + off) h0 (some m0) &&
      (_checkAt (sampleBuf s) (1 + off) h1 (some m1) && true)) = _
  rw [Bool.and_true, Nat.zero_add, Nat.add_comm 1 off,
    checkAt_sampleBuf_masked s off h0 m0 (by omega),
    checkAt_sampleBuf_masked s (off + 1) h1 m1 hoff]

theorem scanMpeg_none_of_zero (s : List Nat) (d : Nat)
    (hd : d + 1 < reasonableDetectionSizeInBytes) (h : s.getD d 0 = 0) :
    scanMpeg s d = none := by
  have hchk : check s [0xff, 0xe0] d (some [0xff, 0xe0]) = false := by
    rw [check_two_masked s d 0xff 0xe0 0xff 0xe0 hd, h, Nat.and_zero]
    rfl
  rw [scanMpeg, hchk]
  rfl

theorem scanMpeg_mp3 (s : List Nat) (d : Nat)
    (hd : d + 1 < reasonableDetectionSizeInBytes)
    (h0 : s.getD d 0 = 0xff)
    (h1 : s.getD (d + 1) 0 &&& 0xe0 = 0xe0)
    (h2 : ¬ s.getD (d + 1) 0 &&& 0x16 = 0x10)
    (h3 : s.getD (d + 1) 0 &&& 0x06 = 0x02) :
    scanMpeg s d = some ⟨"mp3", "audio/mpeg"⟩ := by
  have hsync : check s [0xff, 0xe0] d (some [0xff, 0xe0]) = true := by
    rw [check_two_masked s d 0xff 0xe0 0xff 0xe0 hd, h0,
      Nat.and_comm 0xe0 (s.getD (d + 1) 0), h1]
    rfl
  have haac : check s [0x10] (d + 1) (some [0x16]) = false := by
    rw [check_one_masked s (d + 1) 0x10 0x16 hd,
      Nat.and_comm 0x16 (s.getD (d + 1) 0), Bool.eq_false_iff]
    intro hEq
    rw [beq_iff_eq] at hEq
    exact h2 hEq.symm
  have hmp3 : check s [0x02] (d + 1) (some [0x06]) = true := by
    rw [check_one_masked s (d + 1) 0x02 0x06 hd,
      Nat.and_comm 0x06 (s.getD (d + 1) 0), h3]
    rfl
  rw [scanMpeg, hsync, haac, hmp3]
  rfl

theorem getD_take_of_lt (input : List Nat) (n i : Nat) (hi : i < n) :
    (input.take n).getD i 0 = input.getD i 0 := by
  rw [List.getD_eq_getElem?_getD, List.getElem?_take, if_pos hi,
    ← List.getD_eq_getElem?_getD]

theorem detectImprecise_tol0 (input : List Nat) (hlen : 12 ≤ input.length)
    (h0 : input.getD 0 0 = 0) (h1 : input.getD 1 0 = 0) (h2 : input.getD 2 0 = 0) :
    detectImprecise 0 (mkBufTok input) = .ok (none, normSize (mkBufTok input)) := by
  have hlen8 : (input.take 8).length = 8 := by
    rw [List.length_take]; omega
  have hS : peekSample [] (min 8 (Tok.sizeN (normSize (mkBufTok input))))
      (normSize (mkBufTok input)) = input.take 8 := by
    show (input.drop 0).take (max 0 (min 8 input.length)) = input.take 8
    rw [List.drop_zero, max_eq_right (Nat.zero_le _),
      min_eq_left (by omega : (8 : Nat) ≤ input.length)]
  have hS2 : peekSample (input.take 8) (min (2 + 0) (Tok.sizeN (normSize (mkBufTok input))))
      (normSize (mkBufTok input)) = input.take 8 := by
    show (input.drop 0).take (max (input.take 8).length (min 2 input.length)) = input.take 8
    rw [List.drop_zero, hlen8, min_eq_left (by omega : (2 : Nat) ≤ input.length)]
    rfl
  have hba : check (input.take 8) [0x0, 0x0, 0x1, 0xba] = false :=
    check_false_of_mismatch _ _ 2 (by decide) (by decide)
      (by rw [getD_take_of_lt input 8 2 (by omega), h2]; decide)
  have hb3 : check (input.take 8) [0x0, 0x0, 0x1, 0xb3] = false :=
    check_false_of_mismatch _ _ 2 (by decide) (by decide)
      (by rw [getD_take_of_lt input 8 2 (by omega), h2]; decide)
  have httf : check (input.take 8) [0x00, 0x01, 0x00, 0x00, 0x00] = false :=
    check_false_of_mismatch _ _ 1 (by decide) (by decide)
      (by rw [getD_take_of_lt input 8 1 (by omega), h1]; decide)
  have hico : check (input.take 8) [0x00, 0x00, 0x01, 0x00] = false :=
    check_false_of_mismatch _ _ 2 (by decide) (by decide)
      (by rw [getD_take_of_lt input 8 2 (by omega), h2]; decide)
  have hcur : check (input.take 8) [0x00, 0x00, 0x02, 0x00] = false :=
    check_false_of_mismatch _ _ 2 (by decide) (by decide)
      (by rw [getD_take_of_lt input 8 2 (by omega), h2]; decide)
  have hsm0 : scanMpeg (input.take 8) 0 = none :=
    scanMpeg_none_of_zero _ _ (by decide)
      (by rw [getD_take_of_lt input 8 0 (by omega), h0])
  simp only [detectImprecise]
  rw [hS, hba, hb3, httf, hico, hcur, hS2,
    show List.range (0 + 1) = [0] from by decide]
  simp only [List.findSome?_cons]
  rw [hsm0]
  rfl

theorem detectImprecise_tol10 (input : List Nat) (hlen : 12 ≤ input.length)
    (hz : ∀ i, i < 10 → input.getD i 0 = 0)
    (hsync : input.getD 10 0 = 0xff)
    (hb1 : input.getD 11 0 &&& 0xe0 = 0xe0)
    (hb2 : ¬ input.getD 11 0 &&& 0x16 = 0x10)
    (hb3 : input.getD 11 0 &&& 0x06 = 0x02) :
    detectImprecise 10 (mkBufTok input)
      = .ok (some ⟨"mp3", "audio/mpeg"⟩, normSize (mkBufTok input)) := by
  have hlen8 : (input.take 8).length = 8 := by
    rw [List.length_take]; omega
  have hS : peekSample [] (min 8 (Tok.sizeN (normSize (mkBufTok input))))
      (normSize (mkBufTok input)) = input.take 8 := by
    show (input.drop 0).take (max 0 (min 8 input.length)) = input.take 8
    rw [List.drop_zero, max_eq_right (Nat.zero_le _),
      min_eq_left (by omega : (8 : Nat) ≤ input.length)]
  have hS2 : peekSample (input.take 8) (min (2 + 10) (Tok.sizeN (normSize (mkBufTok input))))
      (normSize (mkBufTok input)) = input.take 12 := by
    show (input.drop 0).take (max (input.take 8).length (min 12 input.length)) = input.take 12
    rw [List.drop_zero, hlen8, min_eq_left (by omega : (12 : Nat) ≤ input.length)]
    rfl
  have hba : check (input.take 8) [0x0, 0x0, 0x1, 0xba] = false :=
    check_false_of_mismatch _ _ 2 (by decide) (by decide)
      (by rw [getD_take_of_lt input 8 2 (by omega), hz 2 (by omega)]; decide)
  have hcb3 : check (input.take 8) [0x0, 0x0, 0x1, 0xb3] = false :=
    check_false_of_mismatch _ _ 2 (by decide) (by decide)
      (by rw [getD_take_of_lt input 8 2 (by omega), hz 2 (by omega)]; decide)
  have httf : check (input.take 8) [0x00, 0x01, 0x00, 0x00, 0x00] = false :=
    check_false_of_mismatch _ _ 1 (by decide) (by decide)
      (by rw [getD_take_of_lt input 8 1 (by omega), hz 1 (by omega)]; decide)
  have hico : check (input.take 8) [0x00, 0x00, 0x01, 0x00] = false :=
    check_false_of_mismatch _ _ 2 (by decide) (by decide)
      (by rw [getD_take_of_lt input 8 2 (by omega), hz 2 (by omega)]; decide)
  have hcur : check (input.take 8) [0x00, 0x00, 0x02, 0x00] = false :=
    check_false_of_mismatch _ _ 2 (by decide) (by decide)
      (by rw [getD_take_of_lt input 8 2 (by omega), hz 2 (by omega)]; decide)
  have hsmlow : ∀ d, d < 10 → scanMpeg (input.take 12) d = none := fun d hdlt =>
    scanMpeg_none_of_zero _ _
      (by simp only [reasonableDetectionSizeInBytes]; omega)
      (by rw [getD_take_of_lt input 12 d (by omega), hz d hdlt])
  have hsm10 : scanMpeg (input.take 12) 10 = some ⟨"mp3", "audio/mpeg"⟩ :=
    scanMpeg_mp3 _ _ (by decide)
      (by rw [getD_take_of_lt input 12 10 (by omega), hsync])
      (by rw [getD_take_of_lt input 12 11 (by omega)]; exact hb1)
      (by rw [getD_take_of_lt input 12 11 (by omega)]; exact hb2)
      (by rw [getD_take_of_lt input 12 11 (by omega)]; exact hb3)
  simp only [detectImprecise]
  rw [hS, hba, hcb3, httf, hico, hcur, hS2,
    show List.range (10 + 1) = [0, 1, 2, 3, 4, 5, 6, 7, 8, 9, 10] from by decide]
  simp only [List.findSome?_cons]
  rw [hsmlow 0 (by omega), hsmlow 1 (by omega), hsmlow 2 (by omega), hsmlow 3 (by omega),
    hsmlow 4 (by omega), hsmlow 5 (by omega), hsmlow 6 (by omega), hsmlow 7 (by omega),
    hsmlow 8 (by omega), hsmlow 9 (by omega), hsm10]
  rfl

/-- C7: for an input on which the confident detector finds nothing and
returns the tokenizer unmoved — as happens when the leading bytes match no
signature arm, e.g. ten zero bytes — and which carries an MPEG layer-3 frame
sync at byte offset 10 (`0xFF` followed by a byte `b` with
`b &&& 0xE0 = 0xE0`, `b &&& 0x16 ≠ 0x10` and `b &&& 0x06 = 0x02`), the
pipeline with the default `mpeg_offset_tolerance = 0` reports no match,
while the pipeline with `mpeg_offset_tolerance = 10` reports
`\x7bext: mp3, mime: audio/mpeg\x7d`. -/
theorem c7_mpeg_offset_tolerance (fuel : Nat) (input : List Nat)
    (hlen : 12 ≤ input.length)
    (hz : ∀ i, i < 10 → input.getD i 0 = 0)
    (hsync : input.getD 10 0 = 0xff)
    (hb1 : input.getD 11 0 &&& 0xe0 = 0xe0)
    (hb2 : ¬ input.getD 11 0 &&& 0x16 = 0x10)
    (hb3 : input.getD 11 0 &&& 0x06 = 0x02)
    (hc0 : detectConfident fuel extNull [] 0 (mkBufTok input)
      = .ok (none, mkBufTok input))
    (hc10 : detectConfident fuel extNull [] 10 (mkBufTok input)
      = .ok (none, mkBufTok input)) :
    fromTokenizer (fuel + 1) extNull [] 0 (mkBufTok input)
        = .ok (none, normSize (mkBufTok input)) ∧
      fromTokenizer (fuel + 1) extNull [] 10 (mkBufTok input)
        = .ok (some ⟨"mp3", "audio/mpeg"⟩, normSize (mkBufTok input)) := by
  have himp0 := detectImprecise_tol0 input hlen
    (hz 0 (by omega)) (hz 1 (by omega)) (hz 2 (by omega))
  have himp10 := detectImprecise_tol10 input hlen hz hsync hb1 hb2 hb3
  constructor
  · rw [fromTokenizer]
    show (match detectConfident fuel extNull [] 0 (mkBufTok input) with
        | .error e => Except.error e
        | .ok (some ft, t2) => Except.ok (some ft, t2)
        | .ok (none, t2) =>
          if (mkBufTok input).pos ≠ t2.pos then Except.ok (none, t2)
          else match detectImprecise 0 t2 with
            | .error e => Except.error e
            | .ok (some ft, t3) => Except.ok (some ft, t3)
            | .ok (none, t3) => Except.ok (none, t3)) = _
    rw [hc0]
    show (if (mkBufTok input).pos ≠ (mkBufTok input).pos then
        Except.ok (none, mkBufTok input)
      else match detectImprecise 0 (mkBufTok input) with
        | .error e => Except.error e
        | .ok (some ft, t3) => Except.ok (some ft, t3)
        | .ok (none, t3) => Except.ok (none, t3)) = _
    rw [if_neg (by omega), himp0]
  · rw [fromTokenizer]
    show (match detectConfident fuel extNull [] 10 (mkBufTok input) with
        | .error e => Except.error e
        | .ok (some ft, t2) => Except.ok (some ft, t2)
        | .ok (none, t2) =>
          if (mkBufTok input).pos ≠ t2.pos then Except.ok (none, t2)
          else match detectImprecise 10 t2 with
            | .error e => Except.error e
            | .ok (some ft, t3) => Except.ok (some ft, t3)
            | .ok (none, t3) => Except.ok (none, t3)) = _
    rw [hc10]
    show (if (mkBufTok input).pos ≠ (mkBufTok input).pos then
        Except.ok (none, mkBufTok input)
      else match detectImprecise 10 (mkBufTok input) with
        | .error e => Except.error e
        | .ok (some ft, t3) => Except.ok (some ft, t3)
        | .ok (none, t3) => Except.ok (none, t3)) = _
    rw [if_neg (by omega), himp10]

theorem c7_mpeg_offset_tolerance_witness :
    (12 ≤ mpegAt10Input.length ∧
        detectConfident 1 extNull [] 0 (mkBufTok mpegAt10Input)
          = .ok (none, mkBufTok mpegAt10Input)) ∧
      fromTokenizer 2 extNull [] 0 (mkBufTok mpegAt10Input)
          = .ok (none, normSize (mkBufTok mpegAt10Input)) ∧
        fromTokenizer 2 extNull [] 10 (mkBufTok mpegAt10Input)
          = .ok (some ⟨"mp3", "audio/mpeg"⟩, normSize (mkBufTok mpegAt10Input)) :=
  ⟨⟨by decide, by rfl⟩,
    c7_mpeg_offset_tolerance 1 mpegAt10Input (by decide) (by decide) (by decide)
      (by decide) (by decide) (by decide) (by rfl) (by rfl)⟩

theorem check_two_unmasked (s : List Nat) (h0 h1 : Nat) :
    check s [h0, h1] = ((h0 == s.getD 0 0) && (h1 == s.getD 1 0)) := by
  show (_checkAt (sampleBuf s) (0 + 0) h0 none &&
      (_checkAt (sampleBuf s) (1 + 0) h1 none && true)) = _
  rw [Bool.and_true, checkAt_sampleBuf_unmasked s (0 + 0) h0 (by decide),
    checkAt_sampleBuf_unmasked s (1 + 0) h1 (by decide)]

theorem check_three_unmasked (s : List Nat) (h0 h1 h2 : Nat) :
    check s [h0, h1, h2] =
      ((h0 == s.getD 0 0) && ((h1 == s.getD 1 0) && (h2 == s.getD 2 0))) := by
  show (_checkAt (sampleBuf s) (0 + 0) h0 none &&
      (_checkAt (sampleBuf s) (1 + 0) h1 none &&
        (_checkAt (sampleBuf s) (2 + 0) h2 none && true))) = _
  rw [Bool.and_true, checkAt_sampleBuf_unmasked s (0 + 0) h0 (by decide),
    checkAt_sampleBuf_unmasked s (1 + 0) h1 (by decide),
    checkAt_sampleBuf_unmasked s (2 + 0) h2 (by decide)]

theorem tokIgnore_buf (input : List Nat) (p : Nat) (n : Int) :
    tokIgnore n (⟨input, p, some input.length⟩ : Tok)
      = ⟨input, ((p : Int) + min n ((input.length : Int) - (p : Int))).toNat,
          some input.length⟩ := rfl

/-- C4 counterexample: a 13-byte `"ID3"` input whose sync-safe length is 3.
The read position 10 plus the length equals the file size, so the claimed
`position + length >= size` rule would report mp3; the code compares with
strictly-greater, skips the ID3 block instead and re-runs the pipeline,
which finds nothing. -/
theorem c4_counterexample :
    id3Input.length = 13 ∧
      uint32SyncSafeToken_get ((id3Input.drop 6).take 4) 0 = 3 ∧
      10 + 3 ≥ 13 ∧
      detectConfident 3 extNull [] 0 (mkBufTok id3Input)
        = .ok (none, ⟨id3Input, 13, some 13⟩) :=
  ⟨rfl, by decide, by decide, by rfl⟩

/-- C4 amended: when the input begins with ASCII `"ID3"`, the confident
detector skips 6 further bytes, reads the 4-byte sync-safe length `L`, and
returns mp3 exactly when position 10 plus `L` is STRICTLY GREATER than the
known file size (the claim said greater-or-equal); otherwise it skips `L`
bytes and re-runs the full pipeline — custom detectors included — from
position `10 + L`. -/
theorem c4_id3_amended (fuel : Nat) (E : Ext) (customs : List (Tok → DetRes))
    (tol : Nat) (input : List Nat) (hlen : 10 ≤ input.length)
    (h0 : input.getD 0 0 = 0x49) (h1 : input.getD 1 0 = 0x44)
    (h2 : input.getD 2 0 = 0x33) :
    detectConfident (fuel + 1) E customs tol (mkBufTok input) =
      (if 10 + uint32SyncSafeToken_get ((input.drop 6).take 4) 0 > input.length then
        .ok (some ⟨"mp3", "audio/mpeg"⟩, ⟨input, 10, some input.length⟩)
      else fromTokenizer fuel E customs tol
        ⟨input, 10 + uint32SyncSafeToken_get ((input.drop 6).take 4) 0,
          some input.length⟩) := by
  have hS : peekSample [] 32 (normSize (mkBufTok input)) = input.take 32 := by
    show (input.drop 0).take (max 0 32) = input.take 32
    rw [List.drop_zero]
    rfl
  have hg0 : (input.take 32).getD 0 0 = 0x49 := by
    rw [getD_take_of_lt input 32 0 (by omega), h0]
  have hg1 : (input.take 32).getD 1 0 = 0x44 := by
    rw [getD_take_of_lt input 32 1 (by omega), h1]
  have hg2 : (input.take 32).getD 2 0 = 0x33 := by
    rw [getD_take_of_lt input 32 2 (by omega), h2]
  have hsigs2 : sigs2Byte (input.take 32) = none := by
    simp only [sigs2Byte, check_two_unmasked, hg0, hg1]
    rfl
  have hbom : check (input.take 32) [0xef, 0xbb, 0xbf] = false := by
    rw [check_three_unmasked, hg0, hg1, hg2]
    rfl
  have hgj : sigsGifJxr (input.take 32) = none := by
    simp only [sigsGifJxr, check_three_unmasked, hg0, hg1, hg2]
    rfl
  have hgzip : check (input.take 32) [0x1f, 0x8b, 0x8] = false := by
    rw [check_three_unmasked, hg0, hg1, hg2]
    rfl
  have hbz2 : check (input.take 32) [0x42, 0x5a, 0x68] = false := by
    rw [check_three_unmasked, hg0, hg1, hg2]
    rfl
  have hid3bytes : stringToBytes (strUnits "ID3") none = [0x49, 0x44, 0x33] := by decide
  have hid3 : checkString (input.take 32) "ID3" = true := by
    rw [checkString, hid3bytes, check_three_unmasked, hg0, hg1, hg2]
    rfl
  have ht1 : tokIgnore 6 (normSize (mkBufTok input)) = ⟨input, 6, some input.length⟩ := by
    rw [show normSize (mkBufTok input) = (⟨input, 0, some input.length⟩ : Tok) from rfl,
      tokIgnore_buf input 0 6,
      show (((0 : Nat) : Int) + min 6 ((input.length : Int) - ((0 : Nat) : Int))).toNat = 6
        from by omega]
  have hread : tokReadBuf 4 (⟨input, 6, some input.length⟩ : Tok)
      = .ok ((input.drop 6).take 4, ⟨input, 10, some input.length⟩) := by
    show (if 6 + 4 ≤ input.length then
        Except.ok ((input.drop 6).take 4, (⟨input, 6 + 4, some input.length⟩ : Tok))
      else Except.error DetErr.endOfStream) = _
    rw [if_pos (by omega : 6 + 4 ≤ input.length)]
  simp only [detectConfident]
  rw [hS, hsigs2, hbom, hgj, hgzip, hbz2, hid3, ht1, hread]
  show (if 10 + uint32SyncSafeToken_get ((input.drop 6).take 4) 0 > input.length then
      Except.ok (some ⟨"mp3", "audio/mpeg"⟩, (⟨input, 10, some input.length⟩ : Tok))
    else fromTokenizer fuel E customs tol
      (tokIgnore ((uint32SyncSafeToken_get ((input.drop 6).take 4) 0 : Nat) : Int)
        (⟨input, 10, some input.length⟩ : Tok))) = _
  by_cases hgt : 10 + uint32SyncSafeToken_get ((input.drop 6).take 4) 0 > input.length
  · rw [if_pos hgt, if_pos hgt]
  · have htok : tokIgnore ((uint32SyncSafeToken_get ((input.drop 6).take 4) 0 : Nat) : Int)
        (⟨input, 10, some input.length⟩ : Tok)
        = ⟨input, 10 + uint32SyncSafeToken_get ((input.drop 6).take 4) 0,
            some input.length⟩ := by
      rw [tokIgnore_buf,
        show (((10 : Nat) : Int) + min ((uint32SyncSafeToken_get ((input.drop 6).take 4) 0 : Nat) : Int)
            ((input.length : Int) - ((10 : Nat) : Int))).toNat
          = 10 + uint32SyncSafeToken_get ((input.drop 6).take 4) 0 from by omega]
    rw [if_neg hgt, if_neg hgt, htok]

theorem c4_id3_amended_witness :
    (10 ≤ id3Input.length ∧ id3Input.getD 0 0 = 0x49 ∧ id3Input.getD 1 0 = 0x44 ∧
        id3Input.getD 2 0 = 0x33) ∧
      detectConfident 3 extNull [] 0 (mkBufTok id3Input) =
        (if 10 + uint32SyncSafeToken_get ((id3Input.drop 6).take 4) 0 > id3Input.length then
          .ok (some ⟨"mp3", "audio/mpeg"⟩, ⟨id3Input, 10, some id3Input.length⟩)
        else fromTokenizer 2 extNull [] 0
          ⟨id3Input, 10 + uint32SyncSafeToken_get ((id3Input.drop 6).take 4) 0,
            some id3Input.length⟩) :=
  ⟨⟨by decide, by decide, by decide, by decide⟩,
    c4_id3_amended 2 extNull [] 0 id3Input (by decide) (by decide) (by decide) (by decide)⟩

theorem zipArm_not_none (E : Ext) (t t' : Tok) : ¬ zipArm E t = .ok (none, t') := by
  simp [zipArm]

theorem oggArm_not_none (t t' : Tok) : ¬ oggArm t = .ok (none, t') := by
  intro h
  simp only [oggArm] at h
  repeat' split at h
  all_goals exact absurd h (by simp)

theorem archArm_not_none (t t' : Tok) : ¬ archArm t = .ok (none, t') := by
  intro h
  simp only [archArm] at h
  repeat' split at h
  all_goals exact absurd h (by simp)

theorem asfObjectLoop_not_none (fuel : Nat) :
    ∀ t t', ¬ asfObjectLoop fuel t = .ok (none, t') := by
  induction fuel with
  | zero =>
    intro t t' h
    exact absurd h (by simp [asfObjectLoop])
  | succ n ih =>
    intro t t' h
    simp only [asfObjectLoop] at h
    repeat' split at h
    all_goals first
    | exact absurd h (by simp)
    | exact ih _ _ h

theorem asfArm_not_none (fuel : Nat) (t t' : Tok) : ¬ asfArm fuel t = .ok (none, t') :=
  asfObjectLoop_not_none fuel (tokIgnore 30 t) t'

theorem readTiffHeader_none_frame (be : Bool) (s : List Nat) (t t' : Tok)
    (h : readTiffHeader be s t = .ok (none, t')) : t' = t := by
  cases be
  all_goals simp only [readTiffHeader] at h
  all_goals repeat' split at h
  all_goals first
  | (simp only [Except.ok.injEq, Prod.mk.injEq, true_and] at h
     exact h.symm)
  | exact absurd h (by simp)

theorem ite_true_eq {α : Sort 1} (a b : α) : (if (true = true) then a else b) = a := rfl

theorem ite_false_eq {α : Sort 1} (a b : α) : (if (false = true) then a else b) = b := rfl

theorem not_error_eq_ok {e : DetErr} {p : Option FileTypeResult × Tok} :
    ¬ (Except.error e : DetRes) = .ok p := fun h => Except.noConfusion h

theorem not_okSome_eq_okNone {r : FileTypeResult} {t t' : Tok} :
    ¬ (Except.ok (some r, t) : DetRes) = .ok (none, t') := fun h =>
  Option.noConfusion (congrArg Prod.fst (Except.ok.inj h))

/-- C1 counterexample: an EBML stream whose DocType is neither webm nor
matroska.  The confident detector enters at position 0, the EBML probe
consumes the whole 9-byte element tree, and the detector exits without a
result at position 9. -/
theorem c1_counterexample :
    (mkBufTok ebmlInput).pos = 0 ∧
      detectConfident 1 extNull [] 0 (mkBufTok ebmlInput)
        = .ok (none, ⟨ebmlInput, 9, some 9⟩) ∧
      (9 : Nat) ≠ 0 :=
  ⟨rfl, by rfl, by decide⟩

/-- C1 amended: when the confident detector exits without a result, the
tokenizer position equals the entry position UNLESS the entry sample
matched one of the consuming probe guards — the UTF-8 BOM, `"ID3"`, the
EBML root element, the PNG signature or the JPEG-2000 signature — whose
probes (or nested detections) may leave the cursor moved on a
non-matching exit. -/
theorem c1_frame_amended (fuel : Nat) (E : Ext) (customs : List (Tok → DetRes))
    (tol : Nat) (t0 t' : Tok)
    (h : detectConfident (fuel + 1) E customs tol t0 = .ok (none, t')) :
    t'.pos = t0.pos ∨
      check (peekSample [] 32 (normSize t0)) [0xef, 0xbb, 0xbf] = true ∨
      checkString (peekSample [] 32 (normSize t0)) "ID3" = true ∨
      check (peekSample [] 32 (normSize t0)) [0x1a, 0x45, 0xdf, 0xa3] = true ∨
      check (peekSample [] 32 (normSize t0))
        [0x89, 0x50, 0x4e, 0x47, 0x0d, 0x0a, 0x1a, 0x0a] = true ∨
      check (peekSample [] 32 (normSize t0))
        [0x00, 0x00, 0x00, 0x0c, 0x6a, 0x50, 0x20, 0x20, 0x0d, 0x0a, 0x87, 0x0a]
        = true := by
  simp only [detectConfident] at h
  have hpos : (normSize t0).pos = t0.pos := rfl
  generalize hs : peekSample [] 32 (normSize t0) = s at h ⊢
  generalize htn : normSize t0 = tN at h hpos
  split at h
  any_goals first
  | exact (not_error_eq_ok h).elim
  | exact (not_okSome_eq_okNone h).elim
  cases hg1 : check s [0xef, 0xbb, 0xbf]
  on_goal 2 => exact Or.inr (Or.inl rfl)
  rw [hg1, ite_false_eq] at h
  split at h
  any_goals first
  | exact (not_error_eq_ok h).elim
  | exact (not_okSome_eq_okNone h).elim
  cases hg2 : check s [0x1f, 0x8b, 0x8]
  on_goal 2 =>
    rw [hg2, ite_true_eq] at h
    split at h
    any_goals first
    | exact (not_error_eq_ok h).elim
    | exact (not_okSome_eq_okNone h).elim
    split at h
    any_goals first
    | exact (not_error_eq_ok h).elim
    | exact (not_okSome_eq_okNone h).elim
    split at h <;> exact (not_okSome_eq_okNone h).elim
  rw [hg2, ite_false_eq] at h
  cases hg3 : check s [0x42, 0x5a, 0x68]
  on_goal 2 =>
    rw [hg3, ite_true_eq] at h
    exact (not_okSome_eq_okNone h).elim
  rw [hg3, ite_false_eq] at h
  cases hg4 : checkString s "ID3"
  on_goal 2 => exact Or.inr (Or.inr (Or.inl rfl))
  rw [hg4, ite_false_eq] at h
  split at h
  any_goals first
  | exact (not_error_eq_ok h).elim
  | exact (not_okSome_eq_okNone h).elim
  cases hg5 : check s [0x50, 0x4b, 0x3, 0x4]
  on_goal 2 =>
    rw [hg5, ite_true_eq] at h
    exact (zipArm_not_none E _ _ h).elim
  rw [hg5, ite_false_eq] at h
  cases hg6 : checkString s "OggS"
  on_goal 2 =>
    rw [hg6, ite_true_eq] at h
    exact (oggArm_not_none _ _ h).elim
  rw [hg6, ite_false_eq] at h
  split at h
  any_goals first
  | exact (not_error_eq_ok h).elim
  | exact (not_okSome_eq_okNone h).elim
  split at h
  any_goals first
  | exact (not_error_eq_ok h).elim
  | exact (not_okSome_eq_okNone h).elim
  rename_i t1 heq
  have ht1 : t1 = tN := by
    split at heq
    · exact readTiffHeader_none_frame false _ _ _ heq
    · simp only [Except.ok.injEq, Prod.mk.injEq, true_and] at heq
      exact heq.symm
  rw [ht1] at h
  split at h
  any_goals first
  | exact (not_error_eq_ok h).elim
  | exact (not_okSome_eq_okNone h).elim
  rename_i t2 heq2
  have ht2 : t2 = tN := by
    split at heq2
    · exact readTiffHeader_none_frame true _ _ _ heq2
    · simp only [Except.ok.injEq, Prod.mk.injEq, true_and] at heq2
      exact heq2.symm
  rw [ht2] at h
  cases hg7 : checkString s "MAC "
  on_goal 2 =>
    rw [hg7, ite_true_eq] at h
    exact (not_okSome_eq_okNone h).elim
  rw [hg7, ite_false_eq] at h
  cases hg8 : check s [0x1a, 0x45, 0xdf, 0xa3]
  on_goal 2 => exact Or.inr (Or.inr (Or.inr (Or.inl rfl)))
  rw [hg8, ite_false_eq] at h
  split at h
  any_goals first
  | exact (not_error_eq_ok h).elim
  | exact (not_okSome_eq_okNone h).elim
  cases hg9 : checkString s "!<arch>"
  on_goal 2 =>
    rw [hg9, ite_true_eq] at h
    exact (archArm_not_none _ _ h).elim
  rw [hg9, ite_false_eq] at h
  split at h
  any_goals first
  | exact (not_error_eq_ok h).elim
  | exact (not_okSome_eq_okNone h).elim
  cases hg10 : check s [0x89, 0x50, 0x4e, 0x47, 0x0d, 0x0a, 0x1a, 0x0a]
  on_goal 2 => exact Or.inr (Or.inr (Or.inr (Or.inr (Or.inl rfl))))
  rw [hg10, ite_false_eq] at h
  split at h
  any_goals first
  | exact (not_error_eq_ok h).elim
  | exact (not_okSome_eq_okNone h).elim
  cases hg11 : check s [0x30, 0x26, 0xb2, 0x75, 0x8e, 0x66, 0xcf, 0x11, 0xa6, 0xd9]
  on_goal 2 =>
    rw [hg11, ite_true_eq] at h
    exact (asfArm_not_none fuel _ _ h).elim
  rw [hg11, ite_false_eq] at h
  split at h
  any_goals first
  | exact (not_error_eq_ok h).elim
  | exact (not_okSome_eq_okNone h).elim
  cases hg12 : check s [0x00, 0x00, 0x00, 0x0c, 0x6a, 0x50, 0x20, 0x20, 0x0d, 0x0a, 0x87, 0x0a]
  on_goal 2 => exact Or.inr (Or.inr (Or.inr (Or.inr (Or.inr rfl))))
  rw [hg12, ite_false_eq] at h
  split at h
  any_goals first
  | exact (not_error_eq_ok h).elim
  | exact (not_okSome_eq_okNone h).elim
  cases hg13 : check s [0xfe, 0xff]
  on_goal 2 =>
    rw [hg13, ite_true_eq] at h
    simp only [Except.ok.injEq, Prod.mk.injEq] at h
    exact Or.inl (h.2 ▸ hpos)
  rw [hg13, ite_false_eq] at h
  cases hg14 : check s [0xd0, 0xcf, 0x11, 0xe0, 0xa1, 0xb1, 0x1a, 0xe1]
  on_goal 2 =>
    rw [hg14, ite_true_eq] at h
    exact (not_okSome_eq_okNone h).elim
  rw [hg14, ite_false_eq] at h
  split at h
  any_goals first
  | exact (not_error_eq_ok h).elim
  | exact (not_okSome_eq_okNone h).elim
  split at h
  any_goals first
  | exact (not_error_eq_ok h).elim
  | exact (not_okSome_eq_okNone h).elim
  split at h
  on_goal 1 =>
    simp only [Except.ok.injEq, Prod.mk.injEq] at h
    exact Or.inl (h.2 ▸ hpos)
  split at h
  any_goals first
  | exact (not_error_eq_ok h).elim
  | exact (not_okSome_eq_okNone h).elim
  simp only [Except.ok.injEq, Prod.mk.injEq, true_and] at h
  exact Or.inl (h ▸ hpos)

theorem c1_frame_amended_witness :
    detectConfident 1 extNull [] 0 (mkBufTok ebmlInput)
        = .ok (none, ⟨ebmlInput, 9, some 9⟩) ∧
      ((⟨ebmlInput, 9, some 9⟩ : Tok).pos = (mkBufTok ebmlInput).pos ∨
        check (peekSample [] 32 (normSize (mkBufTok ebmlInput))) [0xef, 0xbb, 0xbf] = true ∨
        checkString (peekSample [] 32 (normSize (mkBufTok ebmlInput))) "ID3" = true ∨
        check (peekSample [] 32 (normSize (mkBufTok ebmlInput))) [0x1a, 0x45, 0xdf, 0xa3]
          = true ∨
        check (peekSample [] 32 (normSize (mkBufTok ebmlInput)))
          [0x89, 0x50, 0x4e, 0x47, 0x0d, 0x0a, 0x1a, 0x0a] = true ∨
        check (peekSample [] 32 (normSize (mkBufTok ebmlInput)))
          [0x00, 0x00, 0x00, 0x0c, 0x6a, 0x50, 0x20, 0x20, 0x0d, 0x0a, 0x87, 0x0a]
          = true) :=
  ⟨by rfl,
    c1_frame_amended 0 extNull [] 0 (mkBufTok ebmlInput) ⟨ebmlInput, 9, some 9⟩ (by rfl)⟩

end FileType
